import Mathlib

/-!
# Verification of the asynchronous job pipeline

Shallow embedding of the job pipeline of the `parkhi-ai-backend` service:
the workflow orchestrator (`src/agents/workflow.py`), the video extraction
stage (`src/agents/video_extractor.py`), the processor service
(`src/services/video_processor.py`), the job repository
(`src/repositories/video_job_repository.py`) and the video endpoints
(`src/api/v1/endpoints/videos.py`).

Modelling conventions:
* the SQL job table is a list of job records; `get` is "first record with
  this id" as in the SQLAlchemy `filter(...).first()` queries;
* `progress` is a Python float in the source, but every value the pipeline
  writes is a small exact decimal (0.0, 10.0, 30.0, 40.0, 50.0, 70.0, 100.0)
  and the code only assigns and compares these values, so `progress` is
  modelled as a rational number;
* timestamps (`datetime.now()`) are modelled as ticks of a logical clock;
* external collaborators (yt-dlp, Whisper, the LLM agents' network calls)
  are modelled as oracles: an `Except`-valued outcome supplied as input;
* WebSocket broadcasts (`websocket_manager.broadcast_to_job`) are modelled
  as events appended to a trace.
-/

/-- Job status values (the `JobStatus` enum / the status strings compared in
`videos.py`). -/
inductive JobStatus where
  | pending
  | processing
  | completed
  | failed
  | cancelled
deriving DecidableEq, Repr

/-- The string value of a status, as stored in the database column. -/
def JobStatus.str : JobStatus → String
  | .pending => "pending"
  | .processing => "processing"
  | .completed => "completed"
  | .failed => "failed"
  | .cancelled => "cancelled"

/-- One row of the video-jobs table (`models/video_job.py` as used by the
repository, the workflow and the endpoints). -/
structure VideoJob where
  id : Nat
  video_url : String
  user_id : Option Nat := none
  status : JobStatus := .pending
  progress : Rat := 0
  created_at : Nat := 0
  completed_at : Option Nat := none
  error_message : Option String := none
  video_title : Option String := none
  video_duration : Option Nat := none
  transcript : Option String := none
  summary : Option String := none
deriving DecidableEq, Repr

/-- The job table. -/
def Store := List VideoJob

instance : DecidableEq Store := inferInstanceAs (DecidableEq (List VideoJob))
instance : Repr Store := inferInstanceAs (Repr (List VideoJob))
instance : Append Store := inferInstanceAs (Append (List VideoJob))

/-- Query `session.query(VideoJob).filter(VideoJob.id == job_id).first()`. -/
def Store.get (s : Store) (job_id : Nat) : Option VideoJob :=
  List.find? (fun j => j.id = job_id) s

/-- Apply a field update to the record(s) with the given id and commit. -/
def Store.update (s : Store) (job_id : Nat) (f : VideoJob → VideoJob) : Store :=
  List.map (fun j => if j.id = job_id then f j else j) s

/-- A WebSocket payload as built by the workflow (a JSON object with a
`type`, a `status`, a `progress` and an optional `message` field). -/
structure WsPayload where
  type : String
  status : String
  progress : Rat
  message : Option String
deriving DecidableEq, Repr

/-- One call to `websocket_manager.broadcast_to_job(job_id, payload)`. -/
structure Broadcast where
  job_id : Nat
  payload : WsPayload
deriving DecidableEq, Repr

/-- The progress payload sent by `update_job_progress`. -/
def progressPayload (p : Rat) (message : Option String) : WsPayload :=
  { type := "progress", status := "processing", progress := p, message := message }

/-- The completion payload sent by `mark_job_completed`. -/
def completionPayload : WsPayload :=
  { type := "completion", status := "completed",
    progress := 100,
    message := some ("Video processing completed! Your results are ready.") }

/-- The observable state one orchestrator run acts on: the job table, the
trace of broadcasts emitted so far, and a logical clock for `datetime.now()`. -/
structure World where
  store : Store
  events : List Broadcast
  clock : Nat
deriving DecidableEq, Repr

namespace VideoWorkflow

/-- Source `VideoWorkflow.mark_job_started`: status to `processing`, progress to 0. -/
def mark_job_started (job_id : Nat) (w : World) : World :=
  let f := fun (j : VideoJob) => { j with status := JobStatus.processing, progress := 0 }
  { w with store := w.store.update job_id f }

/-- Source `VideoWorkflow.mark_job_completed`: status `completed`, `completed_at`
now, progress 100, then one completion broadcast to the job. -/
def mark_job_completed (job_id : Nat) (w : World) : World :=
  let f := fun (j : VideoJob) =>
    { j with status := JobStatus.completed, completed_at := some w.clock, progress := 100 }
  { store := (w.store.update job_id f : Store),
    events := w.events ++ [{ job_id := job_id, payload := completionPayload }],
    clock := w.clock + 1 }

/-- Source `VideoWorkflow.mark_job_failed`: status `failed`, `completed_at` now,
`error_message` set; no broadcast, progress untouched. -/
def mark_job_failed (job_id : Nat) (error_message : String) (w : World) : World :=
  let f := fun (j : VideoJob) =>
    { j with status := JobStatus.failed, completed_at := some w.clock,
             error_message := some error_message }
  { store := (w.store.update job_id f : Store),
    events := w.events,
    clock := w.clock + 1 }

/-- Source `VideoWorkflow.update_job_progress`: write the progress value and send a
progress broadcast.  Note: the source checks neither the job's status nor the
previous progress value — the write and the broadcast are unconditional. -/
def update_job_progress (job_id : Nat) (p : Rat) (message : Option String)
    (w : World) : World :=
  let f := fun (j : VideoJob) => { j with progress := p }
  { w with
    store := w.store.update job_id f,
    events := w.events ++ [{ job_id := job_id, payload := progressPayload p message }] }

/-- Source `VideoWorkflow.update_job_transcript`. -/
def update_job_transcript (job_id : Nat) (content : String) (w : World) : World :=
  let f := fun (j : VideoJob) => { j with transcript := some content }
  { w with store := w.store.update job_id f }

/-- Source `VideoWorkflow.update_job_title`: no-op on a falsy (empty) title. -/
def update_job_title (job_id : Nat) (title : String) (w : World) : World :=
  if title = "" then w
  else
    let f := fun (j : VideoJob) => { j with video_title := some title }
    { w with store := w.store.update job_id f }

end VideoWorkflow

namespace VideoTutorAgent

/-- Modelled from the spec: `src/agents/base.py` (class `VideoTutorAgent`) is
not under `src/`; per §4.2 a stage "emitting zero-or-more progress
notifications" persists the progress value and emits a progress payload,
exactly the operation `VideoWorkflow.update_job_progress` performs. -/
def update_job_progress (job_id : Nat) (p : Rat) (message : Option String)
    (w : World) : World :=
  VideoWorkflow.update_job_progress job_id p message w

/-- Modelled from the spec: `src/agents/base.py` is not under `src/`; its
`mark_job_failed(job_id, error_message)` helper (called at
`video_extractor.py` line 52) is modelled after the spec's failure
transition (§4.1: status `failed`, stringified error in `error_message`,
`completed_at` set), the same transition `VideoWorkflow.mark_job_failed`
performs. -/
def mark_job_failed (job_id : Nat) (error_message : String) (w : World) : World :=
  VideoWorkflow.mark_job_failed job_id error_message w

end VideoTutorAgent

/-- The mutable `data` dict threaded between stages (only the fields the
pipeline reads or writes). -/
structure Ctx where
  video_url : Option String := none
  transcript : Option String := none
  video_title : Option String := none
  summary : Option String := none
deriving DecidableEq, Repr

/-- The metadata dict built by `extract_video_data` (fields the pipeline
persists). -/
structure VideoMeta where
  title : String
  duration : Nat
deriving DecidableEq, Repr

/-- Outcomes of the video extraction stage's external calls: the body of
`extract_video_data` (yt-dlp download plus the duration gate) and the body of
`model.transcribe` in `generate_transcript` (the stripped text). -/
structure ExtractorOracle where
  extract : Except String VideoMeta
  transcribe : Except String String
deriving Repr

namespace VideoExtractorAgent

/-- Source `VideoExtractorAgent.update_video_metadata`: persist title and duration. -/
def update_video_metadata (job_id : Nat) (meta : VideoMeta) (w : World) : World :=
  let f := fun (j : VideoJob) =>
    { j with video_title := some meta.title, video_duration := some meta.duration }
  { w with store := w.store.update job_id f }

/-- Source `VideoExtractorAgent.update_transcript`: persist the transcript. -/
def update_transcript (job_id : Nat) (transcript : String) (w : World) : World :=
  let f := fun (j : VideoJob) => { j with transcript := some transcript }
  { w with store := w.store.update job_id f }

/-- Source `VideoExtractorAgent.run`.  External effects are read from the oracle;
any failure inside the `try` block first calls the agent-level
`mark_job_failed` with the message prefixed by ("Video extraction failed: "),
then re-raises the original error (modelled as the `Except.error` result).
A missing `video_url` is raised before the `try` block, so it is not marked. -/
def run (o : ExtractorOracle) (job_id : Nat) (ctx : Ctx) (w : World) :
    Except String Ctx × World :=
  match ctx.video_url with
  | none => (Except.error ("No video_url provided in job data"), w)
  | some _ =>
    let w := VideoTutorAgent.update_job_progress job_id 10 (some ("Extracting video metadata")) w
    match o.extract with
    | Except.error e =>
      let msg := "Failed to process video: " ++ e
      (Except.error msg, VideoTutorAgent.mark_job_failed job_id ("Video extraction failed: " ++ msg) w)
    | Except.ok meta =>
      let w := update_video_metadata job_id meta w
      let w := VideoTutorAgent.update_job_progress job_id 30 (some ("Generating transcript with Whisper")) w
      let w := VideoTutorAgent.update_job_progress job_id 40 (some ("Transcription in progress...")) w
      match o.transcribe with
      | Except.error e =>
        let msg := "Transcription failed: " ++ e
        (Except.error msg, VideoTutorAgent.mark_job_failed job_id ("Video extraction failed: " ++ msg) w)
      | Except.ok t =>
        if t = "" then
          let msg := "Transcription failed: Whisper returned empty transcript"
          (Except.error msg, VideoTutorAgent.mark_job_failed job_id ("Video extraction failed: " ++ msg) w)
        else
          let w := update_transcript job_id t w
          let w := VideoTutorAgent.update_job_progress job_id 50 (some ("Video extraction completed")) w
          (Except.ok { ctx with transcript := some t, video_title := some meta.title }, w)

end VideoExtractorAgent

/-- Emit a sequence of stage-internal progress notifications, one
`update_job_progress` call per value. -/
def emitAll (job_id : Nat) : List Rat → World → World
  | [], w => w
  | p :: ps, w => emitAll job_id ps (VideoTutorAgent.update_job_progress job_id p none w)

/-- Behaviour of a modelled downstream stage: the progress values it emits
before finishing, and its result (summary text, or a raised error). -/
structure StageOracle where
  emits : List Rat
  result : Except String String
deriving Repr

namespace ContentAnalyzerAgent

/-- Modelled from the spec: `src/agents/content_analyzer.py` is not under
`src/`.  Per the stage contract (§4.2) the analyzer consumes the transcript,
emits zero-or-more monotonically increasing progress notifications, persists
its summary onto the Job record, and on any internal failure raises a
descriptive error without writing a terminal status itself (§7). -/
def run (o : StageOracle) (job_id : Nat) (ctx : Ctx) (w : World) :
    Except String Ctx × World :=
  let w := emitAll job_id o.emits w
  match o.result with
  | Except.error e => (Except.error e, w)
  | Except.ok s =>
    let f := fun (j : VideoJob) => { j with summary := some s }
    (Except.ok { ctx with summary := some s }, { w with store := w.store.update job_id f })

end ContentAnalyzerAgent

namespace QuestionGeneratorAgent

/-- Modelled from the spec: `src/agents/question_generator.py` is not under
`src/`.  Per the stage contract (§4.2) the generator emits zero-or-more
monotonically increasing progress notifications and produces the quiz
questions (stored outside the job row), raising a descriptive error on
failure without writing a terminal status itself (§7). -/
def run (o : StageOracle) (job_id : Nat) (ctx : Ctx) (w : World) :
    Except String Ctx × World :=
  let w := emitAll job_id o.emits w
  match o.result with
  | Except.error e => (Except.error e, w)
  | Except.ok _ => (Except.ok ctx, w)

end QuestionGeneratorAgent

/-- The oracles of one full pipeline run: extraction or parsing, analysis,
question generation. -/
structure RunOracle where
  ext : ExtractorOracle
  ana : StageOracle
  gen : StageOracle
deriving Repr

namespace VideoWorkflow

/-- Source `VideoWorkflow.process_video`: mark started, run the three stages in
order; on any stage error mark the job failed with the stringified error and
re-raise; on success mark the job completed. -/
def process_video (o : RunOracle) (job_id : Nat) (video_url : String)
    (w : World) : Except String Unit × World :=
  let ctx : Ctx := { video_url := some video_url }
  let w := mark_job_started job_id w
  match VideoExtractorAgent.run o.ext job_id ctx w with
  | (Except.error e, w) => (Except.error e, mark_job_failed job_id e w)
  | (Except.ok ctx, w) =>
    match ContentAnalyzerAgent.run o.ana job_id ctx w with
    | (Except.error e, w) => (Except.error e, mark_job_failed job_id e w)
    | (Except.ok ctx, w) =>
      match QuestionGeneratorAgent.run o.gen job_id ctx w with
      | (Except.error e, w) => (Except.error e, mark_job_failed job_id e w)
      | (Except.ok _, w) => (Except.ok (), mark_job_completed job_id w)

/-- Outcome of `parser_factory.get_parser` + `parser.parse(source_path)`:
whether a parser exists for the input type, and the parse result (content and
title on success, the `ParseResult.error` text on failure). -/
structure ParseOracle where
  parser_found : Bool
  parse : Except String (String × String)
deriving Repr

/-- Source `VideoWorkflow.process_content`: mark started; stage 1 parses via the
parser factory, persists transcript and title; stages 2 and 3 reuse the
analyzer and question generator; same failure handling as `process_video`. -/
def process_content (o : ParseOracle) (ana gen : StageOracle) (job_id : Nat)
    (input_type : String) (w : World) : Except String Unit × World :=
  let w := mark_job_started job_id w
  let w := update_job_progress job_id 10 (some ("Parsing " ++ input_type ++ " content...")) w
  if o.parser_found = false then
    let e := "No parser available for input type: " ++ input_type
    (Except.error e, mark_job_failed job_id e w)
  else
    match o.parse with
    | Except.error perr =>
      let e := "Failed to parse content: " ++ perr
      (Except.error e, mark_job_failed job_id e w)
    | Except.ok (content, title) =>
      let w := update_job_transcript job_id content w
      let w := update_job_title job_id title w
      let w := update_job_progress job_id 40 (some ("Analyzing content structure...")) w
      let ctx : Ctx := { transcript := some content, video_title := some title }
      match ContentAnalyzerAgent.run ana job_id ctx w with
      | (Except.error e, w) => (Except.error e, mark_job_failed job_id e w)
      | (Except.ok ctx, w) =>
        let w := update_job_progress job_id 70 (some ("Generating quiz questions...")) w
        match QuestionGeneratorAgent.run gen job_id ctx w with
        | (Except.error e, w) => (Except.error e, mark_job_failed job_id e w)
        | (Except.ok _, w) => (Except.ok (), mark_job_completed job_id w)

end VideoWorkflow

namespace VideoProcessorService

/-- The attributes an instance of `VideoProcessorService` exposes: the three
fields set in `__init__` and the five defined methods.  Python attribute
lookup on any other name raises `AttributeError`. -/
def attrs : List String :=
  ["workflow", "executor", "running_jobs",
   "process_video_background_sync", "process_video_background",
   "start_processing", "is_job_running", "get_running_jobs_count"]

/-- Lookup `getattr(video_processor, name)` succeeds exactly when the name is an
attribute of the service. -/
def hasAttr (name : String) : Bool := attrs.contains name

/-- Source `VideoProcessorService.is_job_running`. -/
def is_job_running (running_jobs : Finset Nat) (job_id : Nat) : Bool :=
  job_id ∈ running_jobs

/-- Source `VideoProcessorService.get_running_jobs_count`. -/
def get_running_jobs_count (running_jobs : Finset Nat) : Nat :=
  running_jobs.card

/-- Observable outcome of one `process_video_background(job_id, ...)` call:
whether the workflow ran, the active-set while it ran, the active-set after
the call returned, and the world after the call. -/
structure BackgroundOutcome where
  ran : Bool
  during : Finset Nat
  final : Finset Nat
  world : World
deriving DecidableEq

/-- Source `VideoProcessorService.process_video_background`: duplicate guard on the
in-memory `running_jobs` set, then `workflow.process_video` inside
`try/except/finally` — the exception is swallowed (logged) and the id is
discarded from the set unconditionally. -/
def process_video_background (o : RunOracle) (running_jobs : Finset Nat)
    (job_id : Nat) (video_url : String) (w : World) : BackgroundOutcome :=
  if job_id ∈ running_jobs then
    { ran := false, during := running_jobs, final := running_jobs, world := w }
  else
    let active := insert job_id running_jobs
    let r := VideoWorkflow.process_video o job_id video_url w
    { ran := true, during := active, final := active.erase job_id, world := r.2 }

end VideoProcessorService

namespace VideoJobRepository

/-- Source `VideoJobRepository.reset_job_for_retry`: only a `failed` job is reset —
status back to `pending`, progress 0, error, completion time and the
stage-produced `transcript` and `summary` cleared; returns whether reset
happened. -/
def reset_job_for_retry (s : Store) (job_id : Nat) : Bool × Store :=
  match s.get job_id with
  | none => (false, s)
  | some job =>
    if job.status = JobStatus.failed then
      let f := fun (j : VideoJob) =>
        { j with status := JobStatus.pending, progress := 0,
                 error_message := none, completed_at := none,
                 transcript := none, summary := none }
      (true, s.update job_id f)
    else (false, s)

end VideoJobRepository

/-- An HTTP response of an endpoint: a body, or an `HTTPException` with a
status code and a detail string. -/
inductive ApiResponse (α : Type) where
  | ok : α → ApiResponse α
  | error : Nat → String → ApiResponse α
deriving DecidableEq, Repr

/-- The fields of the `JobStatusResponse` returned by `cancel_job`. -/
structure JobStatusResponse where
  id : Nat
  status : JobStatus
  progress : Rat
  error_message : Option String
deriving DecidableEq, Repr

/-- The fields of the `ProcessingJobResponse` returned by `retry_job`. -/
structure RetryResponse where
  job_id : Nat
  status : String
  message : String
deriving DecidableEq, Repr

namespace VideosEndpoints

/-- Endpoint `cancel_job`.  `repo.get` is not followed by a none-check: on a
missing id the attribute access `job.status` on `None` raises
`AttributeError`, which falls through to the generic `except Exception`
handler (HTTP 500, "Failed to cancel job") — the `JobNotFoundError` handler
never fires.  A terminal job yields HTTP 400 with no state change; otherwise
status becomes `cancelled`, `error_message` becomes ("Job cancelled by user"),
and the updated record is returned. -/
def cancel_job (s : Store) (job_id : Nat) : ApiResponse JobStatusResponse × Store :=
  match s.get job_id with
  | none => (ApiResponse.error 500 ("Failed to cancel job"), s)
  | some job =>
    if job.status = JobStatus.completed ∨ job.status = JobStatus.failed ∨
        job.status = JobStatus.cancelled then
      (ApiResponse.error 400 ("Cannot cancel job in " ++ job.status.str ++ " state"), s)
    else
      let f := fun (j : VideoJob) =>
        { j with status := JobStatus.cancelled,
                 error_message := some ("Job cancelled by user") }
      (ApiResponse.ok
        { id := job.id, status := JobStatus.cancelled, progress := job.progress,
          error_message := some ("Job cancelled by user") },
        s.update job_id f)

/-- Outcome of the `retry_job` endpoint: the HTTP response, the store after
the call, and the background tasks actually scheduled. -/
structure RetryOutcome where
  response : ApiResponse RetryResponse
  store : Store
  scheduled : List String
deriving DecidableEq, Repr

/-- Endpoint `retry_job`: 404 on a missing job, 400 unless the status is
`failed`, then `reset_job_for_retry`; the subsequent
`background_tasks.add_task(video_processor.process_video_async, ...)`
evaluates the attribute `process_video_async` eagerly — a failed lookup
raises `AttributeError` inside the handler's `try`, caught by the generic
`except Exception` (HTTP 500, "Failed to retry job") with no task scheduled;
the committed reset is kept. -/
def retry_job (s : Store) (job_id : Nat) : RetryOutcome :=
  match s.get job_id with
  | none => { response := ApiResponse.error 404 ("Job not found"), store := s, scheduled := [] }
  | some job =>
    if job.status ≠ JobStatus.failed then
      { response := ApiResponse.error 400
          ("Cannot retry job with status: " ++ job.status.str ++
           ". Only failed jobs can be retried."),
        store := s, scheduled := [] }
    else
      let r := VideoJobRepository.reset_job_for_retry s job_id
      if r.1 = false then
        { response := ApiResponse.error 400 ("Failed to reset job for retry"),
          store := r.2, scheduled := [] }
      else if VideoProcessorService.hasAttr ("process_video_async") then
        { response := ApiResponse.ok
            { job_id := job_id, status := "pending",
              message := "Job retry started successfully" },
          store := r.2, scheduled := ["process_video_async"] }
      else
        { response := ApiResponse.error 500 ("Failed to retry job"),
          store := r.2, scheduled := [] }

end VideosEndpoints

/-- Progress values broadcast for one job in a trace segment. -/
def runProgressValues (j : Nat) (evs : List Broadcast) : List Rat :=
  evs.filterMap
    (fun b => if b.job_id = j ∧ b.payload.type = "progress"
              then some b.payload.progress else none)

/-- Last progress value broadcast for the job, 0 when none was (the value
`mark_job_started` wrote). -/
def lastWrittenProgress (j : Nat) (evs : List Broadcast) : Rat :=
  ((runProgressValues j evs).getLast?).getD 0

/-! ## Toolkit lemmas -/

/-- Reading the updated id through `Store.update`, for id-preserving field
updates. -/
theorem Store.get_update_self (s : Store) (j : Nat) (f : VideoJob → VideoJob)
    (hf : ∀ jb, (f jb).id = jb.id) : (s.update j f).get j = (s.get j).map f := by
  induction s with
  | nil => rfl
  | cons a t ih =>
    by_cases h : a.id = j
    · simp [Store.update, Store.get, List.find?_cons, h, hf a]
    · simpa [Store.update, Store.get, List.find?_cons, h] using ih

@[simp] theorem VideoWorkflow.mark_job_started_events (j : Nat) (w : World) :
    (VideoWorkflow.mark_job_started j w).events = w.events := rfl

@[simp] theorem VideoWorkflow.mark_job_started_clock (j : Nat) (w : World) :
    (VideoWorkflow.mark_job_started j w).clock = w.clock := rfl

@[simp] theorem VideoWorkflow.mark_job_started_get (j : Nat) (w : World) :
    (VideoWorkflow.mark_job_started j w).store.get j =
      (w.store.get j).map
        (fun jb => { jb with status := JobStatus.processing, progress := 0 }) :=
  Store.get_update_self _ _ _ (fun _ => rfl)

@[simp] theorem VideoWorkflow.mark_job_completed_events (j : Nat) (w : World) :
    (VideoWorkflow.mark_job_completed j w).events =
      w.events ++ [{ job_id := j, payload := completionPayload }] := rfl

@[simp] theorem VideoWorkflow.mark_job_completed_clock (j : Nat) (w : World) :
    (VideoWorkflow.mark_job_completed j w).clock = w.clock + 1 := rfl

@[simp] theorem VideoWorkflow.mark_job_completed_get (j : Nat) (w : World) :
    (VideoWorkflow.mark_job_completed j w).store.get j =
      (w.store.get j).map
        (fun jb => { jb with status := JobStatus.completed,
                             completed_at := some w.clock, progress := 100 }) :=
  Store.get_update_self _ _ _ (fun _ => rfl)

@[simp] theorem VideoWorkflow.mark_job_failed_events (j : Nat) (e : String) (w : World) :
    (VideoWorkflow.mark_job_failed j e w).events = w.events := rfl

@[simp] theorem VideoWorkflow.mark_job_failed_clock (j : Nat) (e : String) (w : World) :
    (VideoWorkflow.mark_job_failed j e w).clock = w.clock + 1 := rfl

@[simp] theorem VideoWorkflow.mark_job_failed_get (j : Nat) (e : String) (w : World) :
    (VideoWorkflow.mark_job_failed j e w).store.get j =
      (w.store.get j).map
        (fun jb => { jb with status := JobStatus.failed,
                             completed_at := some w.clock,
                             error_message := some e }) :=
  Store.get_update_self _ _ _ (fun _ => rfl)

@[simp] theorem VideoWorkflow.update_job_progress_events (j : Nat) (p : Rat)
    (m : Option String) (w : World) :
    (VideoWorkflow.update_job_progress j p m w).events =
      w.events ++ [{ job_id := j, payload := progressPayload p m }] := rfl

@[simp] theorem VideoWorkflow.update_job_progress_clock (j : Nat) (p : Rat)
    (m : Option String) (w : World) :
    (VideoWorkflow.update_job_progress j p m w).clock = w.clock := rfl

@[simp] theorem VideoWorkflow.update_job_progress_get (j : Nat) (p : Rat)
    (m : Option String) (w : World) :
    (VideoWorkflow.update_job_progress j p m w).store.get j =
      (w.store.get j).map (fun jb => { jb with progress := p }) :=
  Store.get_update_self _ _ _ (fun _ => rfl)

@[simp] theorem VideoWorkflow.update_job_transcript_events (j : Nat) (c : String) (w : World) :
    (VideoWorkflow.update_job_transcript j c w).events = w.events := rfl

@[simp] theorem VideoWorkflow.update_job_transcript_clock (j : Nat) (c : String) (w : World) :
    (VideoWorkflow.update_job_transcript j c w).clock = w.clock := rfl

@[simp] theorem VideoWorkflow.update_job_transcript_get (j : Nat) (c : String) (w : World) :
    (VideoWorkflow.update_job_transcript j c w).store.get j =
      (w.store.get j).map (fun jb => { jb with transcript := some c }) :=
  Store.get_update_self _ _ _ (fun _ => rfl)

@[simp] theorem VideoWorkflow.update_job_title_events (j : Nat) (t : String) (w : World) :
    (VideoWorkflow.update_job_title j t w).events = w.events := by
  unfold VideoWorkflow.update_job_title
  split <;> rfl

@[simp] theorem VideoWorkflow.update_job_title_clock (j : Nat) (t : String) (w : World) :
    (VideoWorkflow.update_job_title j t w).clock = w.clock := by
  unfold VideoWorkflow.update_job_title
  split <;> rfl

@[simp] theorem VideoWorkflow.update_job_title_get (j : Nat) (t : String) (w : World) :
    (VideoWorkflow.update_job_title j t w).store.get j =
      (w.store.get j).map
        (fun jb => if t = "" then jb else { jb with video_title := some t }) := by
  unfold VideoWorkflow.update_job_title
  by_cases h : t = ""
  · simp [h, Option.map_id']
  · simp only [if_neg h]
    exact Store.get_update_self _ _ _ (fun _ => rfl)

@[simp] theorem VideoExtractorAgent.update_video_metadata_events (j : Nat)
    (meta : VideoMeta) (w : World) :
    (VideoExtractorAgent.update_video_metadata j meta w).events = w.events := rfl

@[simp] theorem VideoExtractorAgent.update_video_metadata_clock (j : Nat)
    (meta : VideoMeta) (w : World) :
    (VideoExtractorAgent.update_video_metadata j meta w).clock = w.clock := rfl

@[simp] theorem VideoExtractorAgent.update_video_metadata_get (j : Nat)
    (meta : VideoMeta) (w : World) :
    (VideoExtractorAgent.update_video_metadata j meta w).store.get j =
      (w.store.get j).map
        (fun jb => { jb with video_title := some meta.title,
                             video_duration := some meta.duration }) :=
  Store.get_update_self _ _ _ (fun _ => rfl)

@[simp] theorem VideoExtractorAgent.update_transcript_events (j : Nat)
    (t : String) (w : World) :
    (VideoExtractorAgent.update_transcript j t w).events = w.events := rfl

@[simp] theorem VideoExtractorAgent.update_transcript_clock (j : Nat)
    (t : String) (w : World) :
    (VideoExtractorAgent.update_transcript j t w).clock = w.clock := rfl

@[simp] theorem VideoExtractorAgent.update_transcript_get (j : Nat)
    (t : String) (w : World) :
    (VideoExtractorAgent.update_transcript j t w).store.get j =
      (w.store.get j).map (fun jb => { jb with transcript := some t }) :=
  Store.get_update_self _ _ _ (fun _ => rfl)

/-- Last element of a cons, with default. -/
theorem lastD_cons : ∀ (ps : List Rat) (p d : Rat),
    ((p :: ps).getLast?).getD d = (ps.getLast?).getD p
  | [], _, _ => rfl
  | q :: qs, p, d => by
    rw [List.getLast?_cons_cons]
    exact (lastD_cons qs q d).trans (lastD_cons qs q p).symm

/-- Last element of an append, with default. -/
theorem lastD_append : ∀ (l₁ l₂ : List Rat) (d : Rat),
    ((l₁ ++ l₂).getLast?).getD d = (l₂.getLast?).getD ((l₁.getLast?).getD d)
  | [], _, _ => rfl
  | p :: ps, l₂, d => by
    rw [List.cons_append, lastD_cons (ps ++ l₂) p d, lastD_append ps l₂ p,
      lastD_cons ps p d]

@[simp] theorem emitAll_events (j : Nat) : ∀ (l : List Rat) (w : World),
    (emitAll j l w).events =
      w.events ++ l.map (fun p => { job_id := j, payload := progressPayload p none })
  | [], w => by simp [emitAll]
  | p :: ps, w => by
    rw [emitAll, emitAll_events j ps]
    simp [VideoTutorAgent.update_job_progress]

@[simp] theorem emitAll_clock (j : Nat) : ∀ (l : List Rat) (w : World),
    (emitAll j l w).clock = w.clock
  | [], _ => rfl
  | p :: ps, w => by
    rw [emitAll, emitAll_clock j ps]
    rfl

@[simp] theorem emitAll_get (j : Nat) : ∀ (l : List Rat) (w : World),
    (emitAll j l w).store.get j =
      (w.store.get j).map
        (fun jb => { jb with progress := (l.getLast?).getD jb.progress })
  | [], w => by
    cases h : w.store.get j <;> simp [emitAll, h]
  | p :: ps, w => by
    rw [emitAll, emitAll_get j ps]
    simp only [VideoTutorAgent.update_job_progress,
      VideoWorkflow.update_job_progress_get, Option.map_map]
    cases h : w.store.get j <;> simp [h, Function.comp, lastD_cons]

@[simp] theorem runProgressValues_nil (j : Nat) : runProgressValues j [] = [] := rfl

@[simp] theorem runProgressValues_append (j : Nat) (l₁ l₂ : List Broadcast) :
    runProgressValues j (l₁ ++ l₂) = runProgressValues j l₁ ++ runProgressValues j l₂ := by
  simp [runProgressValues]

@[simp] theorem runProgressValues_progress (j : Nat) (p : Rat) (m : Option String) :
    runProgressValues j [{ job_id := j, payload := progressPayload p m }] = [p] := by
  simp [runProgressValues, progressPayload]

@[simp] theorem runProgressValues_completion (j : Nat) :
    runProgressValues j [{ job_id := j, payload := completionPayload }] = [] := by
  simp +decide [runProgressValues, completionPayload]

@[simp] theorem runProgressValues_map_emit (j : Nat) (l : List Rat) :
    runProgressValues j
      (l.map (fun p => { job_id := j, payload := progressPayload p none })) = l := by
  rw [runProgressValues, List.filterMap_map]
  have h : ((fun (b : Broadcast) =>
      if b.job_id = j ∧ b.payload.type = "progress"
      then some b.payload.progress else none) ∘
      (fun p => ({ job_id := j, payload := progressPayload p none } : Broadcast))) = some := by
    funext p
    simp [Function.comp, progressPayload]
  rw [h, List.filterMap_some]

/-- Monotone blocks concatenate when the second block dominates the first. -/
theorem chain_le_append (l₁ l₂ : List Rat)
    (h₁ : List.Chain' (· ≤ ·) l₁) (h₂ : List.Chain' (· ≤ ·) l₂)
    (hb : ∀ p ∈ l₁, ∀ q ∈ l₂, p ≤ q) : List.Chain' (· ≤ ·) (l₁ ++ l₂) :=
  List.Chain'.append h₁ h₂ (fun x hx y hy =>
    hb x (List.mem_of_getLast?_eq_some hx) y (List.mem_of_mem_head? hy))

/-- Prepending a lower bound keeps a progress sequence monotone. -/
theorem chain_le_cons (x : Rat) (l : List Rat)
    (hl : List.Chain' (· ≤ ·) l) (hx : ∀ p ∈ l, x ≤ p) :
    List.Chain' (· ≤ ·) (x :: l) :=
  List.Chain'.cons' hl (fun y hy => hx y (List.mem_of_mem_head? hy))

/-! ## Claims -/

/-- C10: for a job id absent from the store, the cancel endpoint does not
return a not-found error: `repo.get` yields `None`, the attribute access on
`None` raises, the `JobNotFoundError` handler never fires, and the caller
gets the generic HTTP 500 "Failed to cancel job" with the store unchanged. -/
theorem C10_cancel_missing_job_returns_500 (s : Store) (j : Nat)
    (h : s.get j = none) :
    VideosEndpoints.cancel_job s j =
      (ApiResponse.error 500 ("Failed to cancel job"), s) := by
  unfold VideosEndpoints.cancel_job
  rw [h]

/-- Witness for C10 at the empty store. -/
theorem C10_cancel_missing_job_returns_500_witness :
    VideosEndpoints.cancel_job ([] : Store) 7 =
      (ApiResponse.error 500 ("Failed to cancel job"), ([] : Store)) :=
  C10_cancel_missing_job_returns_500 ([] : Store) 7 rfl

/-- A failed job record used to exercise the retry endpoint. -/
def retryFailedJob : VideoJob :=
  { id := 1, video_url := "u", status := JobStatus.failed,
    progress := 40, completed_at := some 5,
    error_message := some ("boom"), transcript := some ("t"), summary := some ("s") }

/-- C9 (counterexample): on a failed job the retry endpoint does not return a
success response and never schedules a background task — the lookup of the
missing `process_video_async` attribute raises inside the handler itself, so
the caller gets the generic HTTP 500 instead. -/
theorem C9_counterexample_retry_response :
    (VideosEndpoints.retry_job [retryFailedJob] 1).response =
      ApiResponse.error 500 ("Failed to retry job") ∧
    (VideosEndpoints.retry_job [retryFailedJob] 1).scheduled = [] := by
  constructor <;> rfl

/-- C9 (amended): `process_video_async` is not an attribute of the processor
service, so after the retry endpoint resets a failed job to `pending` the
eager attribute lookup in `add_task(...)` raises `AttributeError` inside the
handler; the handler answers the generic HTTP 500, schedules no background
task, and the job stays `pending` with progress 0 and no error message. -/
theorem C9_retry_attribute_error (s : Store) (j : Nat) (jb : VideoJob)
    (hj : s.get j = some jb) (hf : jb.status = JobStatus.failed) :
    VideoProcessorService.hasAttr ("process_video_async") = false ∧
    (VideosEndpoints.retry_job s j).response =
      ApiResponse.error 500 ("Failed to retry job") ∧
    (VideosEndpoints.retry_job s j).scheduled = [] ∧
    ∃ jb', (VideosEndpoints.retry_job s j).store.get j = some jb' ∧
      jb'.status = JobStatus.pending ∧ jb'.progress = 0 ∧
      jb'.error_message = none := by
  have hna : VideoProcessorService.hasAttr ("process_video_async") = false := by decide
  have hrun : VideosEndpoints.retry_job s j =
      { response := ApiResponse.error 500 ("Failed to retry job"),
        store := s.update j (fun jb2 =>
          { jb2 with status := JobStatus.pending, progress := 0,
                     error_message := none, completed_at := none,
                     transcript := none, summary := none }),
        scheduled := [] } := by
    unfold VideosEndpoints.retry_job VideoJobRepository.reset_job_for_retry
    rw [hj]
    simp [hf, hna]
  refine ⟨hna, ?_, ?_, ?_⟩
  · rw [hrun]
  · rw [hrun]
  · rw [hrun]
    have h2 : (s.update j (fun jb2 =>
        { jb2 with status := JobStatus.pending, progress := 0,
                   error_message := none, completed_at := none,
                   transcript := none, summary := none })).get j =
        some { jb with status := JobStatus.pending, progress := 0,
                       error_message := none, completed_at := none,
                       transcript := none, summary := none } := by
      rw [Store.get_update_self s j (fun jb2 =>
          { jb2 with status := JobStatus.pending, progress := 0,
                     error_message := none, completed_at := none,
                     transcript := none, summary := none }) (fun _ => rfl), hj]
      rfl
    exact ⟨_, h2, rfl, rfl, rfl⟩

/-- Witness for C9 (amended) at a concrete failed job. -/
theorem C9_retry_attribute_error_witness :
    VideoProcessorService.hasAttr ("process_video_async") = false ∧
    (VideosEndpoints.retry_job [retryFailedJob] 1).response =
      ApiResponse.error 500 ("Failed to retry job") ∧
    (VideosEndpoints.retry_job [retryFailedJob] 1).scheduled = [] ∧
    ∃ jb', (VideosEndpoints.retry_job [retryFailedJob] 1).store.get 1 = some jb' ∧
      jb'.status = JobStatus.pending ∧ jb'.progress = 0 ∧
      jb'.error_message = none :=
  C9_retry_attribute_error [retryFailedJob] 1 retryFailedJob rfl rfl

/-- C4: retry is a no-op returning a failure indication (404/400, store
untouched, nothing scheduled) unless the job's status is `failed`; on a
failed job the reset leaves it `pending` with progress 0 and the error,
completion time, transcript and summary cleared. -/
theorem C4_retry_contract (s : Store) (j : Nat) :
    (s.get j = none →
      VideosEndpoints.retry_job s j =
        { response := ApiResponse.error 404 ("Job not found"),
          store := s, scheduled := [] }) ∧
    (∀ jb, s.get j = some jb → jb.status ≠ JobStatus.failed →
      VideosEndpoints.retry_job s j =
        { response := ApiResponse.error 400
            ("Cannot retry job with status: " ++ jb.status.str ++
             ". Only failed jobs can be retried."),
          store := s, scheduled := [] }) ∧
    (∀ jb, s.get j = some jb → jb.status = JobStatus.failed →
      ∃ jb', (VideosEndpoints.retry_job s j).store.get j = some jb' ∧
        jb'.status = JobStatus.pending ∧ jb'.progress = 0 ∧
        jb'.error_message = none ∧ jb'.completed_at = none ∧
        jb'.transcript = none ∧ jb'.summary = none) := by
  refine ⟨?_, ?_, ?_⟩
  · intro h
    unfold VideosEndpoints.retry_job
    rw [h]
  · intro jb hj hne
    unfold VideosEndpoints.retry_job
    rw [hj]
    simp [hne]
  · intro jb hj hf
    have hna : VideoProcessorService.hasAttr ("process_video_async") = false := by decide
    have hrun : (VideosEndpoints.retry_job s j).store =
        s.update j (fun jb2 =>
          { jb2 with status := JobStatus.pending, progress := 0,
                     error_message := none, completed_at := none,
                     transcript := none, summary := none }) := by
      unfold VideosEndpoints.retry_job VideoJobRepository.reset_job_for_retry
      rw [hj]
      simp [hf, hna]
    rw [hrun]
    have h2 : (s.update j (fun jb2 =>
        { jb2 with status := JobStatus.pending, progress := 0,
                   error_message := none, completed_at := none,
                   transcript := none, summary := none })).get j =
        some { jb with status := JobStatus.pending, progress := 0,
                       error_message := none, completed_at := none,
                       transcript := none, summary := none } := by
      rw [Store.get_update_self s j (fun jb2 =>
          { jb2 with status := JobStatus.pending, progress := 0,
                     error_message := none, completed_at := none,
                     transcript := none, summary := none }) (fun _ => rfl), hj]
      rfl
    exact ⟨_, h2, rfl, rfl, rfl, rfl, rfl, rfl⟩

/-- A pending job record used to exercise the retry rejection branch. -/
def retryPendingJob : VideoJob := { id := 2, video_url := "v" }

/-- Witness for C4 at concrete stores: missing id, pending job, failed job. -/
theorem C4_retry_contract_witness :
    VideosEndpoints.retry_job ([] : Store) 1 =
      { response := ApiResponse.error 404 ("Job not found"),
        store := ([] : Store), scheduled := [] } ∧
    VideosEndpoints.retry_job [retryPendingJob] 2 =
      { response := ApiResponse.error 400
          ("Cannot retry job with status: pending. Only failed jobs can be retried."),
        store := [retryPendingJob], scheduled := [] } ∧
    ∃ jb', (VideosEndpoints.retry_job [retryFailedJob] 1).store.get 1 = some jb' ∧
      jb'.status = JobStatus.pending ∧ jb'.progress = 0 ∧
      jb'.error_message = none ∧ jb'.completed_at = none ∧
      jb'.transcript = none ∧ jb'.summary = none :=
  ⟨(C4_retry_contract ([] : Store) 1).1 rfl,
   (C4_retry_contract [retryPendingJob] 2).2.1 retryPendingJob rfl (by decide),
   (C4_retry_contract [retryFailedJob] 1).2.2 retryFailedJob rfl rfl⟩

/-- C3: the processor service's in-memory duplicate guard — a submit for an
id already in the active-set returns immediately with nothing run and no
state change; otherwise the id is in the active-set while the orchestrator
runs and is removed unconditionally afterwards (the oracle covers success
and failure alike), and `is_job_running` / `get_running_jobs_count` are
exactly membership and size of that set. -/
theorem C3_processor_duplicate_guard (o : RunOracle) (act : Finset Nat)
    (j : Nat) (url : String) (w : World) :
    (j ∈ act →
      VideoProcessorService.process_video_background o act j url w =
        { ran := false, during := act, final := act, world := w }) ∧
    (j ∉ act →
      (VideoProcessorService.process_video_background o act j url w).ran = true ∧
      (VideoProcessorService.process_video_background o act j url w).during =
        insert j act ∧
      j ∈ (VideoProcessorService.process_video_background o act j url w).during ∧
      (VideoProcessorService.process_video_background o act j url w).final = act) ∧
    (∀ i, VideoProcessorService.is_job_running act i = true ↔ i ∈ act) ∧
    VideoProcessorService.get_running_jobs_count act = act.card := by
  refine ⟨?_, ?_, ?_, rfl⟩
  · intro h
    unfold VideoProcessorService.process_video_background
    rw [if_pos h]
  · intro h
    unfold VideoProcessorService.process_video_background
    rw [if_neg h]
    exact ⟨rfl, rfl, Finset.mem_insert_self j act, Finset.erase_insert h⟩
  · intro i
    simp [VideoProcessorService.is_job_running]

/-- Witness for C3: a duplicate submit for id 1 and a fresh submit for id 2
against the active-set containing only id 1. -/
theorem C3_processor_duplicate_guard_witness :
    (VideoProcessorService.process_video_background
        { ext := { extract := Except.error ("e"), transcribe := Except.error ("e") },
          ana := { emits := [], result := Except.ok ("s") },
          gen := { emits := [], result := Except.ok ("q") } }
        {1} 1 "u" { store := [], events := [], clock := 0 } =
      { ran := false, during := {1}, final := {1},
        world := { store := [], events := [], clock := 0 } }) ∧
    ((VideoProcessorService.process_video_background
        { ext := { extract := Except.error ("e"), transcribe := Except.error ("e") },
          ana := { emits := [], result := Except.ok ("s") },
          gen := { emits := [], result := Except.ok ("q") } }
        {1} 2 "u" { store := [], events := [], clock := 0 }).ran = true ∧
      (VideoProcessorService.process_video_background
        { ext := { extract := Except.error ("e"), transcribe := Except.error ("e") },
          ana := { emits := [], result := Except.ok ("s") },
          gen := { emits := [], result := Except.ok ("q") } }
        {1} 2 "u" { store := [], events := [], clock := 0 }).during = insert 2 {1} ∧
      2 ∈ (VideoProcessorService.process_video_background
        { ext := { extract := Except.error ("e"), transcribe := Except.error ("e") },
          ana := { emits := [], result := Except.ok ("s") },
          gen := { emits := [], result := Except.ok ("q") } }
        {1} 2 "u" { store := [], events := [], clock := 0 }).during ∧
      (VideoProcessorService.process_video_background
        { ext := { extract := Except.error ("e"), transcribe := Except.error ("e") },
          ana := { emits := [], result := Except.ok ("s") },
          gen := { emits := [], result := Except.ok ("q") } }
        {1} 2 "u" { store := [], events := [], clock := 0 }).final = {1}) :=
  ⟨(C3_processor_duplicate_guard _ {1} 1 "u" _).1 (Finset.mem_singleton_self 1),
   (C3_processor_duplicate_guard _ {1} 2 "u" _).2.1 (by decide)⟩

/-- A processing job used as counterexample input for cancel-related claims. -/
def processingJob : VideoJob :=
  { id := 1, video_url := "u", status := JobStatus.processing, progress := 10 }

/-- C7 (counterexample): cancelling a processing job writes the non-null
`error_message` "Job cancelled by user" — a write outside the failure
transition, which the claim rules out. -/
theorem C7_counterexample_cancel_writes_error :
    processingJob.error_message = none ∧
    (((VideosEndpoints.cancel_job [processingJob] 1).2).get 1).map
        VideoJob.error_message = some (some ("Job cancelled by user")) := by
  constructor <;> rfl

/-- C7 (amended): `error_message` is set by the failure transition AND by
cancel (to "Job cancelled by user"); it is cleared by a successful retry and
left unchanged by progress updates, the start/completion transitions and the
transcript/title writes. -/
theorem C7_error_message_writers (j : Nat) (w : World) (jb : VideoJob)
    (hj : w.store.get j = some jb) :
    (∀ e, ((VideoWorkflow.mark_job_failed j e w).store.get j).map
        VideoJob.error_message = some (some e)) ∧
    (jb.status ≠ JobStatus.completed → jb.status ≠ JobStatus.failed →
      jb.status ≠ JobStatus.cancelled →
      (((VideosEndpoints.cancel_job w.store j).2).get j).map
        VideoJob.error_message = some (some ("Job cancelled by user"))) ∧
    (jb.status = JobStatus.failed →
      (((VideoJobRepository.reset_job_for_retry w.store j).2).get j).map
        VideoJob.error_message = some none) ∧
    (∀ p m, ((VideoWorkflow.update_job_progress j p m w).store.get j).map
        VideoJob.error_message = some jb.error_message) ∧
    (((VideoWorkflow.mark_job_started j w).store.get j).map
        VideoJob.error_message = some jb.error_message) ∧
    (((VideoWorkflow.mark_job_completed j w).store.get j).map
        VideoJob.error_message = some jb.error_message) ∧
    (∀ c, ((VideoWorkflow.update_job_transcript j c w).store.get j).map
        VideoJob.error_message = some jb.error_message) ∧
    (∀ t, ((VideoWorkflow.update_job_title j t w).store.get j).map
        VideoJob.error_message = some jb.error_message) := by
  refine ⟨?_, ?_, ?_, ?_, ?_, ?_, ?_, ?_⟩
  · intro e
    simp [hj]
  · intro h1 h2 h3
    unfold VideosEndpoints.cancel_job
    rw [hj]
    have hcond : ¬(jb.status = JobStatus.completed ∨ jb.status = JobStatus.failed ∨
        jb.status = JobStatus.cancelled) := by
      intro hc
      rcases hc with hc | hc | hc
      · exact h1 hc
      · exact h2 hc
      · exact h3 hc
    simp only [if_neg hcond]
    rw [Store.get_update_self w.store j (fun jb2 =>
        { jb2 with status := JobStatus.cancelled,
                   error_message := some ("Job cancelled by user") }) (fun _ => rfl), hj]
    rfl
  · intro hf
    unfold VideoJobRepository.reset_job_for_retry
    rw [hj]
    simp only [if_pos hf]
    rw [Store.get_update_self w.store j (fun jb2 =>
        { jb2 with status := JobStatus.pending, progress := 0,
                   error_message := none, completed_at := none,
                   transcript := none, summary := none }) (fun _ => rfl), hj]
    rfl
  · intro p m
    simp [hj]
  · simp [hj]
  · simp [hj]
  · intro c
    simp [hj]
  · intro t
    by_cases ht : t = "" <;> simp [ht, hj]

/-- Witness for C7 (amended): the writers and non-writers of `error_message`
evaluated on one processing job and one failed job. -/
theorem C7_error_message_writers_witness :
    (((VideoWorkflow.mark_job_failed 1 "oops"
        { store := [processingJob], events := [], clock := 3 }).store.get 1).map
        VideoJob.error_message = some (some ("oops"))) ∧
    ((((VideosEndpoints.cancel_job [processingJob] 1).2).get 1).map
        VideoJob.error_message = some (some ("Job cancelled by user"))) ∧
    ((((VideoJobRepository.reset_job_for_retry [retryFailedJob] 1).2).get 1).map
        VideoJob.error_message = some none) ∧
    (((VideoWorkflow.update_job_progress 1 40 none
        { store := [processingJob], events := [], clock := 3 }).store.get 1).map
        VideoJob.error_message = some processingJob.error_message) :=
  ⟨(C7_error_message_writers 1 { store := [processingJob], events := [], clock := 3 }
      processingJob rfl).1 "oops",
   (C7_error_message_writers 1 { store := [processingJob], events := [], clock := 3 }
      processingJob rfl).2.1 (by decide) (by decide) (by decide),
   (C7_error_message_writers 1 { store := [retryFailedJob], events := [], clock := 3 }
      retryFailedJob rfl).2.2.1 rfl,
   (C7_error_message_writers 1 { store := [processingJob], events := [], clock := 3 }
      processingJob rfl).2.2.2.1 40 none⟩

/-- C5 (counterexample): after a processing job is cancelled, the next
`update_job_progress` call of a running stage still writes the progress
value and still emits a progress broadcast — nothing is skipped on a
cancelled job. -/
theorem C5_counterexample_progress_after_cancel :
    ((((VideosEndpoints.cancel_job [processingJob] 1).2).get 1).map
        VideoJob.status = some JobStatus.cancelled) ∧
    (VideoWorkflow.update_job_progress 1 40 none
        { store := (VideosEndpoints.cancel_job [processingJob] 1).2,
          events := [], clock := 0 }).events =
      [{ job_id := 1, payload := progressPayload 40 none }] ∧
    (((VideoWorkflow.update_job_progress 1 40 none
        { store := (VideosEndpoints.cancel_job [processingJob] 1).2,
          events := [], clock := 0 }).store.get 1).map
        VideoJob.progress = some 40) := by
  refine ⟨rfl, rfl, rfl⟩

/-- C5 (amended): cancel is rejected with HTTP 400 and no state change when
the status is terminal, and otherwise sets the status to `cancelled` (also
writing `error_message`); but a running stage does not observe this —
`update_job_progress` checks no status, so its store write and progress
broadcast still happen for a cancelled job. -/
theorem C5_cancel_contract (s : Store) (j : Nat) (jb : VideoJob)
    (hj : s.get j = some jb) :
    ((jb.status = JobStatus.completed ∨ jb.status = JobStatus.failed ∨
        jb.status = JobStatus.cancelled) →
      VideosEndpoints.cancel_job s j =
        (ApiResponse.error 400 ("Cannot cancel job in " ++ jb.status.str ++ " state"), s)) ∧
    (¬(jb.status = JobStatus.completed ∨ jb.status = JobStatus.failed ∨
        jb.status = JobStatus.cancelled) →
      ∃ jb', ((VideosEndpoints.cancel_job s j).2).get j = some jb' ∧
        jb'.status = JobStatus.cancelled ∧
        jb'.error_message = some ("Job cancelled by user") ∧
        jb'.progress = jb.progress) ∧
    (∀ (w : World) (p : Rat) (m : Option String),
      (VideoWorkflow.update_job_progress j p m w).events =
        w.events ++ [{ job_id := j, payload := progressPayload p m }] ∧
      (VideoWorkflow.update_job_progress j p m w).store.get j =
        (w.store.get j).map (fun jb2 => { jb2 with progress := p })) := by
  refine ⟨?_, ?_, ?_⟩
  · intro h
    unfold VideosEndpoints.cancel_job
    rw [hj]
    simp only [if_pos h]
  · intro h
    unfold VideosEndpoints.cancel_job
    rw [hj]
    simp only [if_neg h]
    have h2 : (s.update j (fun jb2 =>
        { jb2 with status := JobStatus.cancelled,
                   error_message := some ("Job cancelled by user") })).get j =
        some { jb with status := JobStatus.cancelled,
                       error_message := some ("Job cancelled by user") } := by
      rw [Store.get_update_self s j (fun jb2 =>
          { jb2 with status := JobStatus.cancelled,
                     error_message := some ("Job cancelled by user") }) (fun _ => rfl), hj]
      rfl
    exact ⟨_, h2, rfl, rfl, rfl⟩
  · intro w p m
    exact ⟨rfl, VideoWorkflow.update_job_progress_get j p m w⟩

/-- A completed job record used to exercise the cancel rejection branch. -/
def completedJob : VideoJob :=
  { id := 3, video_url := "w", status := JobStatus.completed, progress := 100 }

/-- Witness for C5 (amended): rejection on a completed job, cancellation of
a processing job, and an unskipped progress update. -/
theorem C5_cancel_contract_witness :
    (VideosEndpoints.cancel_job [completedJob] 3 =
      (ApiResponse.error 400 ("Cannot cancel job in completed state"), [completedJob])) ∧
    (∃ jb', ((VideosEndpoints.cancel_job [processingJob] 1).2).get 1 = some jb' ∧
      jb'.status = JobStatus.cancelled ∧
      jb'.error_message = some ("Job cancelled by user") ∧
      jb'.progress = processingJob.progress) ∧
    ((VideoWorkflow.update_job_progress 1 55 none
        { store := [processingJob], events := [], clock := 0 }).events =
      [] ++ [{ job_id := 1, payload := progressPayload 55 none }] ∧
      (VideoWorkflow.update_job_progress 1 55 none
        { store := [processingJob], events := [], clock := 0 }).store.get 1 =
        (Store.get [processingJob] 1).map (fun jb2 => { jb2 with progress := 55 })) :=
  ⟨(C5_cancel_contract [completedJob] 3 completedJob rfl).1 (Or.inl rfl),
   (C5_cancel_contract [processingJob] 1 processingJob rfl).2.1 (by decide),
   (C5_cancel_contract [processingJob] 1 processingJob rfl).2.2
     { store := [processingJob], events := [], clock := 0 } 55 none⟩

/-- Characterization of a `process_video` run whose extraction download
fails: result, trace and final job record. -/
theorem pv_extract_error (o : RunOracle) (j : Nat) (url : String) (store : Store)
    (clock : Nat) (jb : VideoJob) (ee : String)
    (hj : store.get j = some jb) (hx : o.ext.extract = Except.error ee) :
    (VideoWorkflow.process_video o j url
        { store := store, events := [], clock := clock }).1 =
      Except.error ("Failed to process video: " ++ ee) ∧
    (VideoWorkflow.process_video o j url
        { store := store, events := [], clock := clock }).2.events =
      [{ job_id := j, payload := progressPayload 10 (some ("Extracting video metadata")) }] ∧
    (VideoWorkflow.process_video o j url
        { store := store, events := [], clock := clock }).2.store.get j =
      some { jb with status := JobStatus.failed, progress := 10,
                     completed_at := some (clock + 1),
                     error_message := some ("Failed to process video: " ++ ee) } := by
  refine ⟨?_, ?_, ?_⟩ <;>
    simp [VideoWorkflow.process_video, VideoExtractorAgent.run, hx,
      VideoTutorAgent.update_job_progress, VideoTutorAgent.mark_job_failed,
      hj, Option.map_map]

/-- Characterization of a `process_video` run whose transcription fails. -/
theorem pv_transcribe_error (o : RunOracle) (j : Nat) (url : String) (store : Store)
    (clock : Nat) (jb : VideoJob) (meta : VideoMeta) (te : String)
    (hj : store.get j = some jb) (hx : o.ext.extract = Except.ok meta)
    (ht : o.ext.transcribe = Except.error te) :
    (VideoWorkflow.process_video o j url
        { store := store, events := [], clock := clock }).1 =
      Except.error ("Transcription failed: " ++ te) ∧
    (VideoWorkflow.process_video o j url
        { store := store, events := [], clock := clock }).2.events =
      [{ job_id := j, payload := progressPayload 10 (some ("Extracting video metadata")) },
       { job_id := j, payload := progressPayload 30 (some ("Generating transcript with Whisper")) },
       { job_id := j, payload := progressPayload 40 (some ("Transcription in progress...")) }] ∧
    (VideoWorkflow.process_video o j url
        { store := store, events := [], clock := clock }).2.store.get j =
      some { jb with video_title := some meta.title,
                     video_duration := some meta.duration,
                     status := JobStatus.failed, progress := 40,
                     completed_at := some (clock + 1),
                     error_message := some ("Transcription failed: " ++ te) } := by
  refine ⟨?_, ?_, ?_⟩ <;>
    simp [VideoWorkflow.process_video, VideoExtractorAgent.run, hx, ht,
      VideoTutorAgent.update_job_progress, VideoTutorAgent.mark_job_failed,
      hj, Option.map_map]

/-- Characterization of a `process_video` run whose transcription comes back
empty. -/
theorem pv_empty_transcript (o : RunOracle) (j : Nat) (url : String) (store : Store)
    (clock : Nat) (jb : VideoJob) (meta : VideoMeta)
    (hj : store.get j = some jb) (hx : o.ext.extract = Except.ok meta)
    (ht : o.ext.transcribe = Except.ok "") :
    (VideoWorkflow.process_video o j url
        { store := store, events := [], clock := clock }).1 =
      Except.error ("Transcription failed: Whisper returned empty transcript") ∧
    (VideoWorkflow.process_video o j url
        { store := store, events := [], clock := clock }).2.events =
      [{ job_id := j, payload := progressPayload 10 (some ("Extracting video metadata")) },
       { job_id := j, payload := progressPayload 30 (some ("Generating transcript with Whisper")) },
       { job_id := j, payload := progressPayload 40 (some ("Transcription in progress...")) }] ∧
    (VideoWorkflow.process_video o j url
        { store := store, events := [], clock := clock }).2.store.get j =
      some { jb with video_title := some meta.title,
                     video_duration := some meta.duration,
                     status := JobStatus.failed, progress := 40,
                     completed_at := some (clock + 1),
                     error_message :=
                       some ("Transcription failed: Whisper returned empty transcript") } := by
  refine ⟨?_, ?_, ?_⟩ <;>
    simp [VideoWorkflow.process_video, VideoExtractorAgent.run, hx, ht,
      VideoTutorAgent.update_job_progress, VideoTutorAgent.mark_job_failed,
      hj, Option.map_map]

/-- Characterization of a `process_video` run whose analysis stage raises. -/
theorem pv_analyzer_error (o : RunOracle) (j : Nat) (url : String) (store : Store)
    (clock : Nat) (jb : VideoJob) (meta : VideoMeta) (t ae : String)
    (hj : store.get j = some jb) (hx : o.ext.extract = Except.ok meta)
    (ht : o.ext.transcribe = Except.ok t) (ht0 : t ≠ "")
    (ha : o.ana.result = Except.error ae) :
    (VideoWorkflow.process_video o j url
        { store := store, events := [], clock := clock }).1 = Except.error ae ∧
    (VideoWorkflow.process_video o j url
        { store := store, events := [], clock := clock }).2.events =
      [{ job_id := j, payload := progressPayload 10 (some ("Extracting video metadata")) },
       { job_id := j, payload := progressPayload 30 (some ("Generating transcript with Whisper")) },
       { job_id := j, payload := progressPayload 40 (some ("Transcription in progress...")) },
       { job_id := j, payload := progressPayload 50 (some ("Video extraction completed")) }] ++
      (o.ana.emits.map (fun p => { job_id := j, payload := progressPayload p none })) ∧
    (VideoWorkflow.process_video o j url
        { store := store, events := [], clock := clock }).2.store.get j =
      some { jb with video_title := some meta.title,
                     video_duration := some meta.duration,
                     transcript := some t,
                     status := JobStatus.failed,
                     progress := (o.ana.emits.getLast?).getD 50,
                     completed_at := some clock,
                     error_message := some ae } := by
  refine ⟨?_, ?_, ?_⟩ <;>
    simp [VideoWorkflow.process_video, VideoExtractorAgent.run,
      ContentAnalyzerAgent.run, hx, ht, ht0, ha,
      VideoTutorAgent.update_job_progress, VideoTutorAgent.mark_job_failed,
      hj, Option.map_map]

/-- Characterization of a `process_video` run whose question-generation
stage raises. -/
theorem pv_generator_error (o : RunOracle) (j : Nat) (url : String) (store : Store)
    (clock : Nat) (jb : VideoJob) (meta : VideoMeta) (t sum ge : String)
    (hj : store.get j = some jb) (hx : o.ext.extract = Except.ok meta)
    (ht : o.ext.transcribe = Except.ok t) (ht0 : t ≠ "")
    (ha : o.ana.result = Except.ok sum) (hg : o.gen.result = Except.error ge) :
    (VideoWorkflow.process_video o j url
        { store := store, events := [], clock := clock }).1 = Except.error ge ∧
    (VideoWorkflow.process_video o j url
        { store := store, events := [], clock := clock }).2.events =
      [{ job_id := j, payload := progressPayload 10 (some ("Extracting video metadata")) },
       { job_id := j, payload := progressPayload 30 (some ("Generating transcript with Whisper")) },
       { job_id := j, payload := progressPayload 40 (some ("Transcription in progress...")) },
       { job_id := j, payload := progressPayload 50 (some ("Video extraction completed")) }] ++
      (o.ana.emits.map (fun p => { job_id := j, payload := progressPayload p none })) ++
      (o.gen.emits.map (fun p => { job_id := j, payload := progressPayload p none })) ∧
    (VideoWorkflow.process_video o j url
        { store := store, events := [], clock := clock }).2.store.get j =
      some { jb with video_title := some meta.title,
                     video_duration := some meta.duration,
                     transcript := some t,
                     summary := some sum,
                     status := JobStatus.failed,
                     progress := (o.gen.emits.getLast?).getD ((o.ana.emits.getLast?).getD 50),
                     completed_at := some clock,
                     error_message := some ge } := by
  refine ⟨?_, ?_, ?_⟩ <;>
    simp [VideoWorkflow.process_video, VideoExtractorAgent.run,
      ContentAnalyzerAgent.run, QuestionGeneratorAgent.run, hx, ht, ht0, ha, hg,
      VideoTutorAgent.update_job_progress, VideoTutorAgent.mark_job_failed,
      Store.get_update_self, hj, Option.map_map]

/-- Characterization of a fully successful `process_video` run. -/
theorem pv_success (o : RunOracle) (j : Nat) (url : String) (store : Store)
    (clock : Nat) (jb : VideoJob) (meta : VideoMeta) (t sum qs : String)
    (hj : store.get j = some jb) (hx : o.ext.extract = Except.ok meta)
    (ht : o.ext.transcribe = Except.ok t) (ht0 : t ≠ "")
    (ha : o.ana.result = Except.ok sum) (hg : o.gen.result = Except.ok qs) :
    (VideoWorkflow.process_video o j url
        { store := store, events := [], clock := clock }).1 = Except.ok () ∧
    (VideoWorkflow.process_video o j url
        { store := store, events := [], clock := clock }).2.events =
      [{ job_id := j, payload := progressPayload 10 (some ("Extracting video metadata")) },
       { job_id := j, payload := progressPayload 30 (some ("Generating transcript with Whisper")) },
       { job_id := j, payload := progressPayload 40 (some ("Transcription in progress...")) },
       { job_id := j, payload := progressPayload 50 (some ("Video extraction completed")) }] ++
      (o.ana.emits.map (fun p => { job_id := j, payload := progressPayload p none })) ++
      (o.gen.emits.map (fun p => { job_id := j, payload := progressPayload p none })) ++
      [{ job_id := j, payload := completionPayload }] ∧
    (VideoWorkflow.process_video o j url
        { store := store, events := [], clock := clock }).2.store.get j =
      some { jb with video_title := some meta.title,
                     video_duration := some meta.duration,
                     transcript := some t,
                     summary := some sum,
                     status := JobStatus.completed,
                     progress := 100,
                     completed_at := some clock } := by
  refine ⟨?_, ?_, ?_⟩ <;>
    simp [VideoWorkflow.process_video, VideoExtractorAgent.run,
      ContentAnalyzerAgent.run, QuestionGeneratorAgent.run, hx, ht, ht0, ha, hg,
      VideoTutorAgent.update_job_progress, VideoTutorAgent.mark_job_failed,
      Store.get_update_self, hj, Option.map_map]

/-- Characterization of a `process_content` run with no parser for the
input type. -/
theorem pc_missing_parse_kind (po : VideoWorkflow.ParseOracle) (ana gen : StageOracle)
    (j : Nat) (ty : String) (store : Store) (clock : Nat) (jb : VideoJob)
    (hj : store.get j = some jb) (hp : po.parser_found = false) :
    (VideoWorkflow.process_content po ana gen j ty
        { store := store, events := [], clock := clock }).1 =
      Except.error ("No parser available for input type: " ++ ty) ∧
    (VideoWorkflow.process_content po ana gen j ty
        { store := store, events := [], clock := clock }).2.events =
      [{ job_id := j, payload := progressPayload 10 (some ("Parsing " ++ ty ++ " content...")) }] ∧
    (VideoWorkflow.process_content po ana gen j ty
        { store := store, events := [], clock := clock }).2.store.get j =
      some { jb with status := JobStatus.failed, progress := 10,
                     completed_at := some clock,
                     error_message :=
                       some ("No parser available for input type: " ++ ty) } := by
  refine ⟨?_, ?_, ?_⟩ <;>
    simp [VideoWorkflow.process_content, hp, hj, Option.map_map]

/-- Characterization of a `process_content` run whose parser fails. -/
theorem pc_parse_error (po : VideoWorkflow.ParseOracle) (ana gen : StageOracle)
    (j : Nat) (ty : String) (store : Store) (clock : Nat) (jb : VideoJob) (pe : String)
    (hj : store.get j = some jb) (hp : po.parser_found = true)
    (hr : po.parse = Except.error pe) :
    (VideoWorkflow.process_content po ana gen j ty
        { store := store, events := [], clock := clock }).1 =
      Except.error ("Failed to parse content: " ++ pe) ∧
    (VideoWorkflow.process_content po ana gen j ty
        { store := store, events := [], clock := clock }).2.events =
      [{ job_id := j, payload := progressPayload 10 (some ("Parsing " ++ ty ++ " content...")) }] ∧
    (VideoWorkflow.process_content po ana gen j ty
        { store := store, events := [], clock := clock }).2.store.get j =
      some { jb with status := JobStatus.failed, progress := 10,
                     completed_at := some clock,
                     error_message := some ("Failed to parse content: " ++ pe) } := by
  refine ⟨?_, ?_, ?_⟩ <;>
    simp [VideoWorkflow.process_content, hp, hr, hj, Option.map_map]

/-- Characterization of a `process_content` run whose analysis stage raises. -/
theorem pc_analyzer_error (po : VideoWorkflow.ParseOracle) (ana gen : StageOracle)
    (j : Nat) (ty : String) (store : Store) (clock : Nat) (jb : VideoJob)
    (content title ae : String)
    (hj : store.get j = some jb) (hp : po.parser_found = true)
    (hr : po.parse = Except.ok (content, title))
    (ha : ana.result = Except.error ae) :
    (VideoWorkflow.process_content po ana gen j ty
        { store := store, events := [], clock := clock }).1 = Except.error ae ∧
    (VideoWorkflow.process_content po ana gen j ty
        { store := store, events := [], clock := clock }).2.events =
      [{ job_id := j, payload := progressPayload 10 (some ("Parsing " ++ ty ++ " content...")) },
       { job_id := j, payload := progressPayload 40 (some ("Analyzing content structure...")) }] ++
      (ana.emits.map (fun p => { job_id := j, payload := progressPayload p none })) ∧
    (VideoWorkflow.process_content po ana gen j ty
        { store := store, events := [], clock := clock }).2.store.get j =
      some { jb with transcript := some content,
                     video_title := if title = "" then jb.video_title else some title,
                     status := JobStatus.failed,
                     progress := (ana.emits.getLast?).getD 40,
                     completed_at := some clock,
                     error_message := some ae } := by
  refine ⟨?_, ?_, ?_⟩ <;> by_cases hti : title = "" <;>
    simp [VideoWorkflow.process_content, ContentAnalyzerAgent.run, hp, hr, ha,
      hti, hj, Option.map_map]

/-- Characterization of a `process_content` run whose question-generation
stage raises. -/
theorem pc_generator_error (po : VideoWorkflow.ParseOracle) (ana gen : StageOracle)
    (j : Nat) (ty : String) (store : Store) (clock : Nat) (jb : VideoJob)
    (content title sum ge : String)
    (hj : store.get j = some jb) (hp : po.parser_found = true)
    (hr : po.parse = Except.ok (content, title))
    (ha : ana.result = Except.ok sum) (hg : gen.result = Except.error ge) :
    (VideoWorkflow.process_content po ana gen j ty
        { store := store, events := [], clock := clock }).1 = Except.error ge ∧
    (VideoWorkflow.process_content po ana gen j ty
        { store := store, events := [], clock := clock }).2.events =
      [{ job_id := j, payload := progressPayload 10 (some ("Parsing " ++ ty ++ " content...")) },
       { job_id := j, payload := progressPayload 40 (some ("Analyzing content structure...")) }] ++
      (ana.emits.map (fun p => { job_id := j, payload := progressPayload p none })) ++
      [{ job_id := j, payload := progressPayload 70 (some ("Generating quiz questions...")) }] ++
      (gen.emits.map (fun p => { job_id := j, payload := progressPayload p none })) ∧
    (VideoWorkflow.process_content po ana gen j ty
        { store := store, events := [], clock := clock }).2.store.get j =
      some { jb with transcript := some content,
                     video_title := if title = "" then jb.video_title else some title,
                     summary := some sum,
                     status := JobStatus.failed,
                     progress := (gen.emits.getLast?).getD 70,
                     completed_at := some clock,
                     error_message := some ge } := by
  refine ⟨?_, ?_, ?_⟩ <;> by_cases hti : title = "" <;>
    simp [VideoWorkflow.process_content, ContentAnalyzerAgent.run,
      QuestionGeneratorAgent.run, hp, hr, ha, hg, hti, hj,
      Store.get_update_self, Option.map_map]

/-- Characterization of a fully successful `process_content` run. -/
theorem pc_success (po : VideoWorkflow.ParseOracle) (ana gen : StageOracle)
    (j : Nat) (ty : String) (store : Store) (clock : Nat) (jb : VideoJob)
    (content title sum qs : String)
    (hj : store.get j = some jb) (hp : po.parser_found = true)
    (hr : po.parse = Except.ok (content, title))
    (ha : ana.result = Except.ok sum) (hg : gen.result = Except.ok qs) :
    (VideoWorkflow.process_content po ana gen j ty
        { store := store, events := [], clock := clock }).1 = Except.ok () ∧
    (VideoWorkflow.process_content po ana gen j ty
        { store := store, events := [], clock := clock }).2.events =
      [{ job_id := j, payload := progressPayload 10 (some ("Parsing " ++ ty ++ " content...")) },
       { job_id := j, payload := progressPayload 40 (some ("Analyzing content structure...")) }] ++
      (ana.emits.map (fun p => { job_id := j, payload := progressPayload p none })) ++
      [{ job_id := j, payload := progressPayload 70 (some ("Generating quiz questions...")) }] ++
      (gen.emits.map (fun p => { job_id := j, payload := progressPayload p none })) ++
      [{ job_id := j, payload := completionPayload }] ∧
    (VideoWorkflow.process_content po ana gen j ty
        { store := store, events := [], clock := clock }).2.store.get j =
      some { jb with transcript := some content,
                     video_title := if title = "" then jb.video_title else some title,
                     summary := some sum,
                     status := JobStatus.completed,
                     progress := 100,
                     completed_at := some clock } := by
  refine ⟨?_, ?_, ?_⟩ <;> by_cases hti : title = "" <;>
    simp [VideoWorkflow.process_content, ContentAnalyzerAgent.run,
      QuestionGeneratorAgent.run, hp, hr, ha, hg, hti, hj,
      Store.get_update_self, Option.map_map]

@[simp] theorem runProgressValues_cons_progress (j : Nat) (p : Rat)
    (m : Option String) (evs : List Broadcast) :
    runProgressValues j ({ job_id := j, payload := progressPayload p m } :: evs) =
      p :: runProgressValues j evs := by
  simp [runProgressValues, progressPayload]

@[simp] theorem runProgressValues_cons_completion (j : Nat) (evs : List Broadcast) :
    runProgressValues j ({ job_id := j, payload := completionPayload } :: evs) =
      runProgressValues j evs := by
  simp +decide [runProgressValues, completionPayload]

/-- Option `or` against a default, as produced by `getLast?` over appends. -/
theorem getD_or (a b : Option Rat) (d : Rat) :
    (a.or b).getD d = a.getD (b.getD d) := by
  cases a <;> cases b <;> rfl

/-- C1: every stage error raised during an orchestrator run (process_video
or process_content) is caught; the job ends with status `failed`, the
stringified error in `error_message`, `completed_at` set, progress left at
its last written value, and the error re-raised (the run's result) to the
caller. -/
theorem C1_orchestrator_failure_transition (o : RunOracle)
    (po : VideoWorkflow.ParseOracle) (j : Nat) (url ty : String)
    (store : Store) (clock : Nat) (jb : VideoJob)
    (hj : store.get j = some jb) :
    (∀ e w', VideoWorkflow.process_video o j url
        { store := store, events := [], clock := clock } = (Except.error e, w') →
      ∃ jb', w'.store.get j = some jb' ∧ jb'.status = JobStatus.failed ∧
        jb'.error_message = some e ∧ (jb'.completed_at).isSome = true ∧
        jb'.progress = lastWrittenProgress j w'.events) ∧
    (∀ e w', VideoWorkflow.process_content po o.ana o.gen j ty
        { store := store, events := [], clock := clock } = (Except.error e, w') →
      ∃ jb', w'.store.get j = some jb' ∧ jb'.status = JobStatus.failed ∧
        jb'.error_message = some e ∧ (jb'.completed_at).isSome = true ∧
        jb'.progress = lastWrittenProgress j w'.events) := by
  constructor
  · intro e w' h
    have hw : (VideoWorkflow.process_video o j url
        { store := store, events := [], clock := clock }).2 = w' := by rw [h]
    have hres : (VideoWorkflow.process_video o j url
        { store := store, events := [], clock := clock }).1 = Except.error e := by rw [h]
    subst hw
    cases hx : o.ext.extract with
    | error ee =>
      obtain ⟨h1, h2, h3⟩ := pv_extract_error o j url store clock jb ee hj hx
      rw [h1] at hres
      injection hres with hres'
      subst hres'
      refine ⟨_, h3, rfl, rfl, rfl, ?_⟩
      rw [h2]
      simp [lastWrittenProgress, lastD_cons, lastD_append, getD_or]
    | ok meta =>
      cases ht : o.ext.transcribe with
      | error te =>
        obtain ⟨h1, h2, h3⟩ := pv_transcribe_error o j url store clock jb meta te hj hx ht
        rw [h1] at hres
        injection hres with hres'
        subst hres'
        refine ⟨_, h3, rfl, rfl, rfl, ?_⟩
        rw [h2]
        simp [lastWrittenProgress, lastD_cons, lastD_append, getD_or]
      | ok t =>
        by_cases ht0 : t = ""
        · subst ht0
          obtain ⟨h1, h2, h3⟩ := pv_empty_transcript o j url store clock jb meta hj hx ht
          rw [h1] at hres
          injection hres with hres'
          subst hres'
          refine ⟨_, h3, rfl, rfl, rfl, ?_⟩
          rw [h2]
          simp [lastWrittenProgress, lastD_cons, lastD_append, getD_or]
        · cases ha : o.ana.result with
          | error ae =>
            obtain ⟨h1, h2, h3⟩ :=
              pv_analyzer_error o j url store clock jb meta t ae hj hx ht ht0 ha
            rw [h1] at hres
            injection hres with hres'
            subst hres'
            refine ⟨_, h3, rfl, rfl, rfl, ?_⟩
            rw [h2]
            simp [lastWrittenProgress, lastD_cons, lastD_append, getD_or]
          | ok sum =>
            cases hg : o.gen.result with
            | error ge =>
              obtain ⟨h1, h2, h3⟩ :=
                pv_generator_error o j url store clock jb meta t sum ge hj hx ht ht0 ha hg
              rw [h1] at hres
              injection hres with hres'
              subst hres'
              refine ⟨_, h3, rfl, rfl, rfl, ?_⟩
              rw [h2]
              simp [lastWrittenProgress, lastD_cons, lastD_append, getD_or]
            | ok qs =>
              have h1 := (pv_success o j url store clock jb meta t sum qs hj hx ht ht0 ha hg).1
              rw [h1] at hres
              exact absurd hres (by simp)
  · intro e w' h
    have hw : (VideoWorkflow.process_content po o.ana o.gen j ty
        { store := store, events := [], clock := clock }).2 = w' := by rw [h]
    have hres : (VideoWorkflow.process_content po o.ana o.gen j ty
        { store := store, events := [], clock := clock }).1 = Except.error e := by rw [h]
    subst hw
    cases hp : po.parser_found with
    | false =>
      obtain ⟨h1, h2, h3⟩ := pc_missing_parse_kind po o.ana o.gen j ty store clock jb hj hp
      rw [h1] at hres
      injection hres with hres'
      subst hres'
      refine ⟨_, h3, rfl, rfl, rfl, ?_⟩
      rw [h2]
      simp [lastWrittenProgress, lastD_cons, lastD_append, getD_or]
    | true =>
      cases hr : po.parse with
      | error pe =>
        obtain ⟨h1, h2, h3⟩ := pc_parse_error po o.ana o.gen j ty store clock jb pe hj hp hr
        rw [h1] at hres
        injection hres with hres'
        subst hres'
        refine ⟨_, h3, rfl, rfl, rfl, ?_⟩
        rw [h2]
        simp [lastWrittenProgress, lastD_cons, lastD_append, getD_or]
      | ok pr =>
        obtain ⟨content, title⟩ := pr
        cases ha : o.ana.result with
        | error ae =>
          obtain ⟨h1, h2, h3⟩ :=
            pc_analyzer_error po o.ana o.gen j ty store clock jb content title ae hj hp hr ha
          rw [h1] at hres
          injection hres with hres'
          subst hres'
          refine ⟨_, h3, rfl, rfl, rfl, ?_⟩
          rw [h2]
          simp [lastWrittenProgress, lastD_cons, lastD_append, getD_or]
        | ok sum =>
          cases hg : o.gen.result with
          | error ge =>
            obtain ⟨h1, h2, h3⟩ :=
              pc_generator_error po o.ana o.gen j ty store clock jb content title sum ge
                hj hp hr ha hg
            rw [h1] at hres
            injection hres with hres'
            subst hres'
            refine ⟨_, h3, rfl, rfl, rfl, ?_⟩
            rw [h2]
            simp [lastWrittenProgress, lastD_cons, lastD_append, getD_or]
          | ok qs =>
            have h1 := (pc_success po o.ana o.gen j ty store clock jb content title sum qs
              hj hp hr ha hg).1
            rw [h1] at hres
            exact absurd hres (by simp)

/-- Oracle for the spec's failure scenario: extraction succeeds, the
analysis stage raises "content too long". -/
def c1oracle : RunOracle :=
  { ext := { extract := Except.ok { title := "T", duration := 60 },
             transcribe := Except.ok ("words") },
    ana := { emits := [60], result := Except.error ("content too long") },
    gen := { emits := [80], result := Except.ok ("q") } }

/-- A fresh pending job for the failure-scenario witness. -/
def c1job : VideoJob := { id := 1, video_url := "u" }

/-- Witness for C1: the analysis stage raises "content too long" and the job
ends failed with that message, completed_at set and progress frozen. -/
theorem C1_orchestrator_failure_transition_witness :
    ∃ jb', ((VideoWorkflow.process_video c1oracle 1 "u"
        { store := [c1job], events := [], clock := 0 }).2).store.get 1 = some jb' ∧
      jb'.status = JobStatus.failed ∧
      jb'.error_message = some ("content too long") ∧
      (jb'.completed_at).isSome = true ∧
      jb'.progress = lastWrittenProgress 1
        ((VideoWorkflow.process_video c1oracle 1 "u"
          { store := [c1job], events := [], clock := 0 }).2).events :=
  (C1_orchestrator_failure_transition c1oracle
      { parser_found := true, parse := Except.ok ("c", "t") }
      1 "u" "pdf" [c1job] 0 c1job rfl).1 ("content too long")
    (VideoWorkflow.process_video c1oracle 1 "u"
      { store := [c1job], events := [], clock := 0 }).2 rfl

/-- C2: a run that completes all stages marks the job completed with
progress 100 and completed_at set, and its trace ends with exactly one
terminal broadcast — the completion payload — preceded only by progress
events for this job, with nothing after it. -/
theorem C2_completion_terminal_broadcast (o : RunOracle) (j : Nat) (url : String)
    (store : Store) (clock : Nat) (jb : VideoJob) (meta : VideoMeta) (t sum qs : String)
    (hj : store.get j = some jb) (hx : o.ext.extract = Except.ok meta)
    (ht : o.ext.transcribe = Except.ok t) (ht0 : t ≠ "")
    (ha : o.ana.result = Except.ok sum) (hg : o.gen.result = Except.ok qs) :
    ∀ res w', VideoWorkflow.process_video o j url
        { store := store, events := [], clock := clock } = (res, w') →
      res = Except.ok () ∧
      (∃ jb', w'.store.get j = some jb' ∧ jb'.status = JobStatus.completed ∧
        jb'.progress = 100 ∧ (jb'.completed_at).isSome = true) ∧
      ∃ evs, w'.events = evs ++ [{ job_id := j, payload := completionPayload }] ∧
        ∀ b ∈ evs, b.job_id = j ∧ b.payload.type = "progress" := by
  intro res w' h
  obtain ⟨h1, h2, h3⟩ := pv_success o j url store clock jb meta t sum qs hj hx ht ht0 ha hg
  have hw : (VideoWorkflow.process_video o j url
      { store := store, events := [], clock := clock }).2 = w' := by rw [h]
  have hr : (VideoWorkflow.process_video o j url
      { store := store, events := [], clock := clock }).1 = res := by rw [h]
  subst hw
  refine ⟨by rw [← hr, h1], ⟨_, h3, rfl, rfl, rfl⟩, ?_⟩
  refine ⟨[{ job_id := j, payload := progressPayload 10 (some ("Extracting video metadata")) },
       { job_id := j, payload := progressPayload 30 (some ("Generating transcript with Whisper")) },
       { job_id := j, payload := progressPayload 40 (some ("Transcription in progress...")) },
       { job_id := j, payload := progressPayload 50 (some ("Video extraction completed")) }] ++
      (o.ana.emits.map (fun p => { job_id := j, payload := progressPayload p none })) ++
      (o.gen.emits.map (fun p => { job_id := j, payload := progressPayload p none })), ?_, ?_⟩
  · rw [h2]
  · intro b hb
    simp only [List.mem_append, List.mem_map, List.mem_cons,
      List.not_mem_nil, or_false] at hb
    rcases hb with ((rfl | rfl | rfl | rfl) | ⟨p, hp, rfl⟩) | ⟨p, hp, rfl⟩ <;>
      exact ⟨rfl, rfl⟩

/-- Oracle for the success scenario: every stage succeeds. -/
def c2oracle : RunOracle :=
  { ext := { extract := Except.ok { title := "T", duration := 60 },
             transcribe := Except.ok ("words") },
    ana := { emits := [60], result := Except.ok ("sum") },
    gen := { emits := [80], result := Except.ok ("q") } }

/-- A fresh pending job for the success-scenario witness. -/
def c2job : VideoJob := { id := 1, video_url := "u" }

/-- Witness for C2 at the all-success oracle. -/
theorem C2_completion_terminal_broadcast_witness :
    Except.ok () = (Except.ok () : Except String Unit) ∧
    (∃ jb', ((VideoWorkflow.process_video c2oracle 1 "u"
        { store := [c2job], events := [], clock := 0 }).2).store.get 1 = some jb' ∧
      jb'.status = JobStatus.completed ∧
      jb'.progress = 100 ∧ (jb'.completed_at).isSome = true) ∧
    ∃ evs, ((VideoWorkflow.process_video c2oracle 1 "u"
        { store := [c2job], events := [], clock := 0 }).2).events =
      evs ++ [{ job_id := 1, payload := completionPayload }] ∧
      ∀ b ∈ evs, b.job_id = 1 ∧ b.payload.type = "progress" :=
  C2_completion_terminal_broadcast c2oracle 1 "u" [c2job] 0 c2job
    { title := "T", duration := 60 } "words" "sum" "q"
    rfl rfl rfl (by decide) rfl rfl (Except.ok ())
    (VideoWorkflow.process_video c2oracle 1 "u"
      { store := [c2job], events := [], clock := 0 }).2 rfl

/-- C6 (counterexample): running the video-extractor stage alone — no
orchestrator involved — on a failing download leaves the job record with
status `failed` and the stage's own prefixed error message: the stage itself
writes the failed status. -/
theorem C6_counterexample_extractor_writes_failed :
    (((VideoExtractorAgent.run
        { extract := Except.error ("boom"), transcribe := Except.ok ("t") } 1
        { video_url := some ("u") }
        { store := [processingJob], events := [], clock := 0 }).2).store.get 1).map
      VideoJob.status = some JobStatus.failed ∧
    (((VideoExtractorAgent.run
        { extract := Except.error ("boom"), transcribe := Except.ok ("t") } 1
        { video_url := some ("u") }
        { store := [processingJob], events := [], clock := 0 }).2).store.get 1).map
      VideoJob.error_message =
      some (some ("Video extraction failed: Failed to process video: boom")) := by
  constructor <;> rfl

/-- C6 (amended): the orchestrator writes `failed` on every stage error, and
the modelled analyzer and question-generator stages never change the status;
but the video-extractor stage also writes `failed` itself (message prefixed
"Video extraction failed: ") whenever its body fails, so the orchestrator is
not the only writer of the failed status. -/
theorem C6_failed_status_writers (o : ExtractorOracle) (ro : RunOracle)
    (so : StageOracle) (j : Nat) (url : String) (ctx : Ctx)
    (store : Store) (clock : Nat) (jb : VideoJob)
    (hj : store.get j = some jb) :
    (∀ e w', (ctx.video_url).isSome = true →
      VideoExtractorAgent.run o j ctx
        { store := store, events := [], clock := clock } = (Except.error e, w') →
      ∃ jb', w'.store.get j = some jb' ∧ jb'.status = JobStatus.failed ∧
        jb'.error_message = some ("Video extraction failed: " ++ e)) ∧
    (∀ res w', ContentAnalyzerAgent.run so j ctx
        { store := store, events := [], clock := clock } = (res, w') →
      (w'.store.get j).map VideoJob.status = some jb.status) ∧
    (∀ res w', QuestionGeneratorAgent.run so j ctx
        { store := store, events := [], clock := clock } = (res, w') →
      (w'.store.get j).map VideoJob.status = some jb.status) ∧
    (∀ e w', VideoWorkflow.process_video ro j url
        { store := store, events := [], clock := clock } = (Except.error e, w') →
      (w'.store.get j).map VideoJob.status = some JobStatus.failed) := by
  refine ⟨?_, ?_, ?_, ?_⟩
  · intro e w' hurl h
    obtain ⟨u, hu⟩ := Option.isSome_iff_exists.mp hurl
    have hw : (VideoExtractorAgent.run o j ctx
        { store := store, events := [], clock := clock }).2 = w' := by rw [h]
    have hres : (VideoExtractorAgent.run o j ctx
        { store := store, events := [], clock := clock }).1 = Except.error e := by rw [h]
    subst hw
    cases hx : o.extract with
    | error ee =>
      have h1 : (VideoExtractorAgent.run o j ctx
          { store := store, events := [], clock := clock }).1 =
          Except.error ("Failed to process video: " ++ ee) := by
        simp [VideoExtractorAgent.run, hu, hx]
      rw [h1] at hres
      injection hres with hres'
      subst hres'
      have h3 : ((VideoExtractorAgent.run o j ctx
          { store := store, events := [], clock := clock }).2).store.get j =
          some { jb with progress := 10, status := JobStatus.failed,
                         completed_at := some clock,
                         error_message := some ("Video extraction failed: " ++
                           ("Failed to process video: " ++ ee)) } := by
        simp [VideoExtractorAgent.run, hu, hx,
          VideoTutorAgent.update_job_progress, VideoTutorAgent.mark_job_failed,
          hj, Option.map_map]
      exact ⟨_, h3, rfl, rfl⟩
    | ok meta =>
      cases ht : o.transcribe with
      | error te =>
        have h1 : (VideoExtractorAgent.run o j ctx
            { store := store, events := [], clock := clock }).1 =
            Except.error ("Transcription failed: " ++ te) := by
          simp [VideoExtractorAgent.run, hu, hx, ht]
        rw [h1] at hres
        injection hres with hres'
        subst hres'
        have h3 : ((VideoExtractorAgent.run o j ctx
            { store := store, events := [], clock := clock }).2).store.get j =
            some { jb with video_title := some meta.title,
                           video_duration := some meta.duration,
                           progress := 40, status := JobStatus.failed,
                           completed_at := some clock,
                           error_message := some ("Video extraction failed: " ++
                             ("Transcription failed: " ++ te)) } := by
          simp [VideoExtractorAgent.run, hu, hx, ht,
            VideoTutorAgent.update_job_progress, VideoTutorAgent.mark_job_failed,
            hj, Option.map_map]
        exact ⟨_, h3, rfl, rfl⟩
      | ok t =>
        by_cases ht0 : t = ""
        · subst ht0
          have h1 : (VideoExtractorAgent.run o j ctx
              { store := store, events := [], clock := clock }).1 =
              Except.error ("Transcription failed: Whisper returned empty transcript") := by
            simp [VideoExtractorAgent.run, hu, hx, ht]
          rw [h1] at hres
          injection hres with hres'
          subst hres'
          have h3 : ((VideoExtractorAgent.run o j ctx
              { store := store, events := [], clock := clock }).2).store.get j =
              some { jb with video_title := some meta.title,
                             video_duration := some meta.duration,
                             progress := 40, status := JobStatus.failed,
                             completed_at := some clock,
                             error_message := some ("Video extraction failed: " ++
                               ("Transcription failed: Whisper returned empty transcript")) } := by
            simp [VideoExtractorAgent.run, hu, hx, ht,
              VideoTutorAgent.update_job_progress, VideoTutorAgent.mark_job_failed,
              hj, Option.map_map]
          exact ⟨_, h3, rfl, rfl⟩
        · exfalso
          simp [VideoExtractorAgent.run, hu, hx, ht, ht0] at hres
  · intro res w' h
    have hw : (ContentAnalyzerAgent.run so j ctx
        { store := store, events := [], clock := clock }).2 = w' := by rw [h]
    subst hw
    cases ha : so.result with
    | error ae => simp [ContentAnalyzerAgent.run, ha, hj, Option.map_map]
    | ok sum =>
      simp [ContentAnalyzerAgent.run, ha, hj, Option.map_map, Store.get_update_self]
  · intro res w' h
    have hw : (QuestionGeneratorAgent.run so j ctx
        { store := store, events := [], clock := clock }).2 = w' := by rw [h]
    subst hw
    cases ha : so.result with
    | error ae => simp [QuestionGeneratorAgent.run, ha, hj, Option.map_map]
    | ok sum => simp [QuestionGeneratorAgent.run, ha, hj, Option.map_map]
  · intro e w' h
    have hw : (VideoWorkflow.process_video ro j url
        { store := store, events := [], clock := clock }).2 = w' := by rw [h]
    have hres : (VideoWorkflow.process_video ro j url
        { store := store, events := [], clock := clock }).1 = Except.error e := by rw [h]
    subst hw
    cases hx : ro.ext.extract with
    | error ee =>
      rw [(pv_extract_error ro j url store clock jb ee hj hx).2.2]
      rfl
    | ok meta =>
      cases ht : ro.ext.transcribe with
      | error te =>
        rw [(pv_transcribe_error ro j url store clock jb meta te hj hx ht).2.2]
        rfl
      | ok t =>
        by_cases ht0 : t = ""
        · subst ht0
          rw [(pv_empty_transcript ro j url store clock jb meta hj hx ht).2.2]
          rfl
        · cases ha : ro.ana.result with
          | error ae =>
            rw [(pv_analyzer_error ro j url store clock jb meta t ae hj hx ht ht0 ha).2.2]
            rfl
          | ok sum =>
            cases hg : ro.gen.result with
            | error ge =>
              rw [(pv_generator_error ro j url store clock jb meta t sum ge
                hj hx ht ht0 ha hg).2.2]
              rfl
            | ok qs =>
              have h1 := (pv_success ro j url store clock jb meta t sum qs
                hj hx ht ht0 ha hg).1
              rw [h1] at hres
              exact absurd hres (by simp)

/-- Witness for C6 (amended), at a failing download, a stage run of the
analyzer and generator, and an analyzer-failing full run. -/
theorem C6_failed_status_writers_witness :
    (∃ jb', ((VideoExtractorAgent.run
        { extract := Except.error ("boom"), transcribe := Except.ok ("t") } 1
        { video_url := some ("u") }
        { store := [processingJob], events := [], clock := 0 }).2).store.get 1 = some jb' ∧
      jb'.status = JobStatus.failed ∧
      jb'.error_message = some ("Video extraction failed: Failed to process video: boom")) ∧
    (((ContentAnalyzerAgent.run { emits := [55], result := Except.ok ("s") } 1
        { video_url := some ("u") }
        { store := [processingJob], events := [], clock := 0 }).2).store.get 1).map
      VideoJob.status = some processingJob.status ∧
    (((QuestionGeneratorAgent.run { emits := [55], result := Except.ok ("s") } 1
        { video_url := some ("u") }
        { store := [processingJob], events := [], clock := 0 }).2).store.get 1).map
      VideoJob.status = some processingJob.status ∧
    (((VideoWorkflow.process_video c1oracle 1 "u"
        { store := [processingJob], events := [], clock := 0 }).2).store.get 1).map
      VideoJob.status = some JobStatus.failed :=
  ⟨(C6_failed_status_writers
      { extract := Except.error ("boom"), transcribe := Except.ok ("t") } c1oracle
      { emits := [55], result := Except.ok ("s") } 1 "u" { video_url := some ("u") }
      [processingJob] 0 processingJob rfl).1
        ("Failed to process video: boom") _ rfl rfl,
   (C6_failed_status_writers
      { extract := Except.error ("boom"), transcribe := Except.ok ("t") } c1oracle
      { emits := [55], result := Except.ok ("s") } 1 "u" { video_url := some ("u") }
      [processingJob] 0 processingJob rfl).2.1 _ _ rfl,
   (C6_failed_status_writers
      { extract := Except.error ("boom"), transcribe := Except.ok ("t") } c1oracle
      { emits := [55], result := Except.ok ("s") } 1 "u" { video_url := some ("u") }
      [processingJob] 0 processingJob rfl).2.2.1 _ _ rfl,
   (C6_failed_status_writers
      { extract := Except.error ("boom"), transcribe := Except.ok ("t") } c1oracle
      { emits := [55], result := Except.ok ("s") } 1 "u" { video_url := some ("u") }
      [processingJob] 0 processingJob rfl).2.2.2
        ("content too long") _ rfl⟩

/-- Append monotone blocks separated by a cut value. -/
theorem chain_le_append_bands (l₁ l₂ : List Rat) (c : Rat)
    (h₁ : List.Chain' (· ≤ ·) l₁) (h₂ : List.Chain' (· ≤ ·) l₂)
    (hb₁ : ∀ p ∈ l₁, p ≤ c) (hb₂ : ∀ q ∈ l₂, c ≤ q) :
    List.Chain' (· ≤ ·) (l₁ ++ l₂) :=
  chain_le_append l₁ l₂ h₁ h₂ (fun p hp q hq => le_trans (hb₁ p hp) (hb₂ q hq))

/-- A last-element-with-default stays below 100 when the default and all
elements do. -/
theorem getD_last_lt_100 (l : List Rat) (d : Rat) (hd : d < 100)
    (hb : ∀ p ∈ l, p < 100) : (l.getLast?).getD d < 100 := by
  cases hl : l.getLast? with
  | none => simpa using hd
  | some x => simpa using hb x (List.mem_of_getLast?_eq_some hl)

/-- Progress trace properties of one `process_video` run: the broadcast
progress values (prefixed by the 0 written at start) are non-decreasing, and
the final progress is 100 exactly when the final status is `completed`. -/
theorem c8_video (o : RunOracle) (j : Nat) (url : String) (store : Store)
    (clock : Nat) (jb : VideoJob)
    (hj : store.get j = some jb)
    (hanaC : List.Chain' (· ≤ ·) o.ana.emits)
    (hanaB : ∀ p ∈ o.ana.emits, 50 ≤ p ∧ p ≤ 70)
    (hgenC : List.Chain' (· ≤ ·) o.gen.emits)
    (hgenB : ∀ p ∈ o.gen.emits, 70 ≤ p ∧ p < 100) :
    ∀ res w', VideoWorkflow.process_video o j url
        { store := store, events := [], clock := clock } = (res, w') →
      List.Chain' (· ≤ ·) (0 :: w'.events.map (fun b => b.payload.progress)) ∧
      ∀ jb', w'.store.get j = some jb' →
        (jb'.progress = 100 ↔ jb'.status = JobStatus.completed) := by
  have hana50 : ∀ p ∈ o.ana.emits, (50 : Rat) ≤ p := fun p hp => (hanaB p hp).1
  have hana70 : ∀ p ∈ o.ana.emits, p ≤ (70 : Rat) := fun p hp => (hanaB p hp).2
  have hgen70 : ∀ p ∈ o.gen.emits, (70 : Rat) ≤ p := fun p hp => (hgenB p hp).1
  have hgen100 : ∀ p ∈ o.gen.emits, p < (100 : Rat) := fun p hp => (hgenB p hp).2
  intro res w' h
  have hw : (VideoWorkflow.process_video o j url
      { store := store, events := [], clock := clock }).2 = w' := by rw [h]
  subst hw
  cases hx : o.ext.extract with
  | error ee =>
    obtain ⟨h1, h2, h3⟩ := pv_extract_error o j url store clock jb ee hj hx
    constructor
    · rw [h2]
      norm_num [progressPayload, List.chain'_pair]
    · intro jb' hjb'
      rw [h3] at hjb'
      injection hjb' with hjb''
      subst hjb''
      simp
  | ok meta =>
    cases ht : o.ext.transcribe with
    | error te =>
      obtain ⟨h1, h2, h3⟩ := pv_transcribe_error o j url store clock jb meta te hj hx ht
      constructor
      · rw [h2]
        have hc : List.Chain' (· ≤ ·) ([0, 10, 30, 40] : List Rat) := by
          norm_num [List.chain'_cons, List.chain'_pair]
        simpa [progressPayload, completionPayload, Function.comp_def, List.map_id'] using hc
      · intro jb' hjb'
        rw [h3] at hjb'
        injection hjb' with hjb''
        subst hjb''
        simp
    | ok t =>
      by_cases ht0 : t = ""
      · subst ht0
        obtain ⟨h1, h2, h3⟩ := pv_empty_transcript o j url store clock jb meta hj hx ht
        constructor
        · rw [h2]
          have hc : List.Chain' (· ≤ ·) ([0, 10, 30, 40] : List Rat) := by
            norm_num [List.chain'_cons, List.chain'_pair]
          simpa [progressPayload, completionPayload, Function.comp_def, List.map_id'] using hc
        · intro jb' hjb'
          rw [h3] at hjb'
          injection hjb' with hjb''
          subst hjb''
          simp
      · cases ha : o.ana.result with
        | error ae =>
          obtain ⟨h1, h2, h3⟩ :=
            pv_analyzer_error o j url store clock jb meta t ae hj hx ht ht0 ha
          constructor
          · rw [h2]
            have hc : List.Chain' (· ≤ ·) (([0, 10, 30, 40, 50] : List Rat) ++ o.ana.emits) :=
              chain_le_append_bands _ _ 50
                (by norm_num [List.chain'_cons, List.chain'_pair]) hanaC
                (by intro p hp; fin_cases hp <;> norm_num) hana50
            simpa [progressPayload, completionPayload, Function.comp_def, List.map_id'] using hc
          · intro jb' hjb'
            rw [h3] at hjb'
            injection hjb' with hjb''
            subst hjb''
            have hne : ((o.ana.emits.getLast?).getD 50) ≠ 100 :=
              ne_of_lt (getD_last_lt_100 _ _ (by norm_num)
                (fun p hp => lt_of_le_of_lt (hana70 p hp) (by norm_num)))
            simp [hne]
        | ok sum =>
          cases hg : o.gen.result with
          | error ge =>
            obtain ⟨h1, h2, h3⟩ :=
              pv_generator_error o j url store clock jb meta t sum ge hj hx ht ht0 ha hg
            constructor
            · rw [h2]
              have hag : List.Chain' (· ≤ ·) (o.ana.emits ++ o.gen.emits) :=
                chain_le_append_bands _ _ 70 hanaC hgenC hana70 hgen70
              have hc : List.Chain' (· ≤ ·)
                  (([0, 10, 30, 40, 50] : List Rat) ++ (o.ana.emits ++ o.gen.emits)) :=
                chain_le_append_bands _ _ 50
                  (by norm_num [List.chain'_cons, List.chain'_pair]) hag
                  (by intro p hp; fin_cases hp <;> norm_num)
                  (by
                    intro q hq
                    rcases List.mem_append.mp hq with hq | hq
                    · exact hana50 q hq
                    · exact le_trans (by norm_num) (hgen70 q hq))
              simpa [progressPayload, completionPayload, Function.comp_def, List.map_id'] using hc
            · intro jb' hjb'
              rw [h3] at hjb'
              injection hjb' with hjb''
              subst hjb''
              have hlt : ((o.ana.emits.getLast?).getD 50) < 100 :=
                getD_last_lt_100 _ _ (by norm_num)
                  (fun p hp => lt_of_le_of_lt (hana70 p hp) (by norm_num))
              have hne : ((o.gen.emits.getLast?).getD
                  ((o.ana.emits.getLast?).getD 50)) ≠ 100 :=
                ne_of_lt (getD_last_lt_100 _ _ hlt hgen100)
              simp [hne]
          | ok qs =>
            obtain ⟨h1, h2, h3⟩ :=
              pv_success o j url store clock jb meta t sum qs hj hx ht ht0 ha hg
            constructor
            · rw [h2]
              have hg100 : List.Chain' (· ≤ ·) (o.gen.emits ++ ([100] : List Rat)) :=
                chain_le_append_bands _ _ 100 hgenC (List.chain'_singleton 100)
                  (fun p hp => le_of_lt (hgen100 p hp))
                  (by intro q hq; fin_cases hq; norm_num)
              have hag : List.Chain' (· ≤ ·)
                  (o.ana.emits ++ (o.gen.emits ++ ([100] : List Rat))) :=
                chain_le_append_bands _ _ 70 hanaC hg100 hana70
                  (by
                    intro q hq
                    rcases List.mem_append.mp hq with hq | hq
                    · exact hgen70 q hq
                    · fin_cases hq; norm_num)
              have hc : List.Chain' (· ≤ ·)
                  (([0, 10, 30, 40, 50] : List Rat) ++
                    (o.ana.emits ++ (o.gen.emits ++ ([100] : List Rat)))) :=
                chain_le_append_bands _ _ 50
                  (by norm_num [List.chain'_cons, List.chain'_pair]) hag
                  (by intro p hp; fin_cases hp <;> norm_num)
                  (by
                    intro q hq
                    rcases List.mem_append.mp hq with hq | hq
                    · exact hana50 q hq
                    · rcases List.mem_append.mp hq with hq | hq
                      · exact le_trans (by norm_num) (hgen70 q hq)
                      · fin_cases hq; norm_num)
              simpa [progressPayload, completionPayload, Function.comp_def, List.map_id'] using hc
            · intro jb' hjb'
              rw [h3] at hjb'
              injection hjb' with hjb''
              subst hjb''
              simp

/-- Progress trace properties of one `process_content` run, as in
`c8_video`. -/
theorem c8_content (po : VideoWorkflow.ParseOracle) (ana gen : StageOracle)
    (j : Nat) (ty : String) (store : Store) (clock : Nat) (jb : VideoJob)
    (hj : store.get j = some jb)
    (hanaC : List.Chain' (· ≤ ·) ana.emits)
    (hanaB : ∀ p ∈ ana.emits, 50 ≤ p ∧ p ≤ 70)
    (hgenC : List.Chain' (· ≤ ·) gen.emits)
    (hgenB : ∀ p ∈ gen.emits, 70 ≤ p ∧ p < 100) :
    ∀ res w', VideoWorkflow.process_content po ana gen j ty
        { store := store, events := [], clock := clock } = (res, w') →
      List.Chain' (· ≤ ·) (0 :: w'.events.map (fun b => b.payload.progress)) ∧
      ∀ jb', w'.store.get j = some jb' →
        (jb'.progress = 100 ↔ jb'.status = JobStatus.completed) := by
  have hana50 : ∀ p ∈ ana.emits, (50 : Rat) ≤ p := fun p hp => (hanaB p hp).1
  have hana70 : ∀ p ∈ ana.emits, p ≤ (70 : Rat) := fun p hp => (hanaB p hp).2
  have hgen70 : ∀ p ∈ gen.emits, (70 : Rat) ≤ p := fun p hp => (hgenB p hp).1
  have hgen100 : ∀ p ∈ gen.emits, p < (100 : Rat) := fun p hp => (hgenB p hp).2
  intro res w' h
  have hw : (VideoWorkflow.process_content po ana gen j ty
      { store := store, events := [], clock := clock }).2 = w' := by rw [h]
  subst hw
  cases hp : po.parser_found with
  | false =>
    obtain ⟨h1, h2, h3⟩ := pc_missing_parse_kind po ana gen j ty store clock jb hj hp
    constructor
    · rw [h2]
      norm_num [progressPayload, List.chain'_pair]
    · intro jb' hjb'
      rw [h3] at hjb'
      injection hjb' with hjb''
      subst hjb''
      simp
  | true =>
    cases hr : po.parse with
    | error pe =>
      obtain ⟨h1, h2, h3⟩ := pc_parse_error po ana gen j ty store clock jb pe hj hp hr
      constructor
      · rw [h2]
        norm_num [progressPayload, List.chain'_pair]
      · intro jb' hjb'
        rw [h3] at hjb'
        injection hjb' with hjb''
        subst hjb''
        simp
    | ok pr =>
      obtain ⟨content, title⟩ := pr
      cases ha : ana.result with
      | error ae =>
        obtain ⟨h1, h2, h3⟩ :=
          pc_analyzer_error po ana gen j ty store clock jb content title ae hj hp hr ha
        constructor
        · rw [h2]
          have hc : List.Chain' (· ≤ ·) (([0, 10, 40] : List Rat) ++ ana.emits) :=
            chain_le_append_bands _ _ 40
              (by norm_num [List.chain'_cons, List.chain'_pair]) hanaC
              (by intro p hpm; fin_cases hpm <;> norm_num)
              (fun q hq => le_trans (by norm_num) (hana50 q hq))
          simpa [progressPayload, completionPayload, Function.comp_def, List.map_id'] using hc
        · intro jb' hjb'
          rw [h3] at hjb'
          injection hjb' with hjb''
          subst hjb''
          have hne : ((ana.emits.getLast?).getD 40) ≠ 100 :=
            ne_of_lt (getD_last_lt_100 _ _ (by norm_num)
              (fun p hpm => lt_of_le_of_lt (hana70 p hpm) (by norm_num)))
          simp [hne]
      | ok sum =>
        cases hg : gen.result with
        | error ge =>
          obtain ⟨h1, h2, h3⟩ :=
            pc_generator_error po ana gen j ty store clock jb content title sum ge
              hj hp hr ha hg
          constructor
          · rw [h2]
            have h70g : List.Chain' (· ≤ ·) ((70 : Rat) :: gen.emits) :=
              chain_le_cons 70 _ hgenC hgen70
            have hag : List.Chain' (· ≤ ·) (ana.emits ++ ((70 : Rat) :: gen.emits)) :=
              chain_le_append_bands _ _ 70 hanaC h70g hana70
                (by
                  intro q hq
                  rcases List.mem_cons.mp hq with rfl | hq
                  · norm_num
                  · exact hgen70 q hq)
            have hc : List.Chain' (· ≤ ·)
                (([0, 10, 40] : List Rat) ++ (ana.emits ++ ((70 : Rat) :: gen.emits))) :=
              chain_le_append_bands _ _ 40
                (by norm_num [List.chain'_cons, List.chain'_pair]) hag
                (by intro p hpm; fin_cases hpm <;> norm_num)
                (by
                  intro q hq
                  rcases List.mem_append.mp hq with hq | hq
                  · exact le_trans (by norm_num) (hana50 q hq)
                  · rcases List.mem_cons.mp hq with rfl | hq
                    · norm_num
                    · exact le_trans (by norm_num) (hgen70 q hq))
            simpa [progressPayload, completionPayload, Function.comp_def, List.map_id'] using hc
          · intro jb' hjb'
            rw [h3] at hjb'
            injection hjb' with hjb''
            subst hjb''
            have hne : ((gen.emits.getLast?).getD 70) ≠ 100 :=
              ne_of_lt (getD_last_lt_100 _ _ (by norm_num) hgen100)
            simp [hne]
        | ok qs =>
          obtain ⟨h1, h2, h3⟩ :=
            pc_success po ana gen j ty store clock jb content title sum qs hj hp hr ha hg
          constructor
          · rw [h2]
            have hg100 : List.Chain' (· ≤ ·) (gen.emits ++ ([100] : List Rat)) :=
              chain_le_append_bands _ _ 100 hgenC (List.chain'_singleton 100)
                (fun p hpm => le_of_lt (hgen100 p hpm))
                (by intro q hq; fin_cases hq; norm_num)
            have h70g : List.Chain' (· ≤ ·)
                ((70 : Rat) :: (gen.emits ++ ([100] : List Rat))) :=
              chain_le_cons 70 _ hg100
                (by
                  intro q hq
                  rcases List.mem_append.mp hq with hq | hq
                  · exact hgen70 q hq
                  · fin_cases hq; norm_num)
            have hag : List.Chain' (· ≤ ·)
                (ana.emits ++ ((70 : Rat) :: (gen.emits ++ ([100] : List Rat)))) :=
              chain_le_append_bands _ _ 70 hanaC h70g hana70
                (by
                  intro q hq
                  rcases List.mem_cons.mp hq with rfl | hq
                  · norm_num
                  · rcases List.mem_append.mp hq with hq | hq
                    · exact hgen70 q hq
                    · fin_cases hq; norm_num)
            have hc : List.Chain' (· ≤ ·)
                (([0, 10, 40] : List Rat) ++
                  (ana.emits ++ ((70 : Rat) :: (gen.emits ++ ([100] : List Rat))))) :=
              chain_le_append_bands _ _ 40
                (by norm_num [List.chain'_cons, List.chain'_pair]) hag
                (by intro p hpm; fin_cases hpm <;> norm_num)
                (by
                  intro q hq
                  rcases List.mem_append.mp hq with hq | hq
                  · exact le_trans (by norm_num) (hana50 q hq)
                  · rcases List.mem_cons.mp hq with rfl | hq
                    · norm_num
                    · rcases List.mem_append.mp hq with hq | hq
                      · exact le_trans (by norm_num) (hgen70 q hq)
                      · fin_cases hq; norm_num)
            simpa [progressPayload, completionPayload, Function.comp_def, List.map_id'] using hc
          · intro jb' hjb'
            rw [h3] at hjb'
            injection hjb' with hjb''
            subst hjb''
            simp

/-- C8: within one execution (either pipeline), the progress values written
and broadcast form a non-decreasing sequence (starting from the 0 written by
`mark_job_started`), and the job's final progress is exactly 100 iff its
final status is `completed`.  The bounds on `emits` are the spec-modelled
stage contract (§4.2) for the two downstream stages whose source is not
under `src/`: their notifications increase monotonically between the
surrounding milestones and stay below 100. -/
theorem C8_progress_monotone (o : RunOracle) (po : VideoWorkflow.ParseOracle)
    (j : Nat) (url ty : String) (store : Store) (clock : Nat) (jb : VideoJob)
    (hj : store.get j = some jb)
    (hanaC : List.Chain' (· ≤ ·) o.ana.emits)
    (hanaB : ∀ p ∈ o.ana.emits, 50 ≤ p ∧ p ≤ 70)
    (hgenC : List.Chain' (· ≤ ·) o.gen.emits)
    (hgenB : ∀ p ∈ o.gen.emits, 70 ≤ p ∧ p < 100) :
    (∀ res w', VideoWorkflow.process_video o j url
        { store := store, events := [], clock := clock } = (res, w') →
      List.Chain' (· ≤ ·) (0 :: w'.events.map (fun b => b.payload.progress)) ∧
      ∀ jb', w'.store.get j = some jb' →
        (jb'.progress = 100 ↔ jb'.status = JobStatus.completed)) ∧
    (∀ res w', VideoWorkflow.process_content po o.ana o.gen j ty
        { store := store, events := [], clock := clock } = (res, w') →
      List.Chain' (· ≤ ·) (0 :: w'.events.map (fun b => b.payload.progress)) ∧
      ∀ jb', w'.store.get j = some jb' →
        (jb'.progress = 100 ↔ jb'.status = JobStatus.completed)) :=
  ⟨c8_video o j url store clock jb hj hanaC hanaB hgenC hgenB,
   c8_content po o.ana o.gen j ty store clock jb hj hanaC hanaB hgenC hgenB⟩

/-- Witness for C8 at the all-success oracle: the emitted sequence is
non-decreasing and progress 100 coincides with completion. -/
theorem C8_progress_monotone_witness :
    List.Chain' (· ≤ ·) (0 :: ((VideoWorkflow.process_video c2oracle 1 "u"
        { store := [c2job], events := [], clock := 0 }).2).events.map
        (fun b => b.payload.progress)) ∧
    ∀ jb', ((VideoWorkflow.process_video c2oracle 1 "u"
        { store := [c2job], events := [], clock := 0 }).2).store.get 1 = some jb' →
      (jb'.progress = 100 ↔ jb'.status = JobStatus.completed) :=
  (C8_progress_monotone c2oracle { parser_found := true, parse := Except.ok ("c", "t") }
      1 "u" "pdf" [c2job] 0 c2job rfl
      (List.chain'_singleton 60)
      (by intro p hp; fin_cases hp; constructor <;> norm_num)
      (List.chain'_singleton 80)
      (by intro p hp; fin_cases hp; constructor <;> norm_num)).1
    (Except.ok ())
    (VideoWorkflow.process_video c2oracle 1 "u"
      { store := [c2job], events := [], clock := 0 }).2 rfl
